import Mathlib

/-!
# PxlRnd: the frame loop of `VKRenderer`

A shallow embedding of `src/src/Vulkan/VKRenderer.cpp`: `WaitWhileMinimized`,
`Cleanup` and `DrawFrame`.  Every call the C++ makes into Vulkan, SDL, the
swapchain, the command pool or a user callback is recorded, in program order and
with its arguments, as one `Op` of a trace.  Values the environment hands back
(the `VkResult` of acquire, submit and present, the acquired image index, the
drawable size the window reports) are inputs of the model.
-/

namespace PxlRnd

/-! ## Vulkan result codes -/

/-- `VkResult` is a C enum of 32-bit signed values. -/
abbrev VkResult := Int

def VK_SUCCESS : VkResult := 0
def VK_SUBOPTIMAL_KHR : VkResult := 1000001003
def VK_ERROR_OUT_OF_DATE_KHR : VkResult := -1000001004
def VK_ERROR_DEVICE_LOST : VkResult := -4

/-! ## Handles and recorded operations -/

/-- A drawable size, as written by `SDL_Vulkan_GetDrawableSize` into two `int32_t`. -/
structure Size where
  width : Int
  height : Int
deriving DecidableEq, Repr

/-- The semaphore handle stored at index `i` of one of the two per-slot vectors. -/
inductive Sem where
  | imageAvailable (i : Nat) -- `imageAvailableSemaphores[i]`
  | renderFinished (i : Nat) -- `renderFinishedSemaphores[i]`
deriving DecidableEq, Repr

/-- The two queues of the renderer. -/
inductive Queue where
  | graphics -- `vulkanState.graphicsQueue`
  | present  -- `presentQueue`
deriving DecidableEq, Repr

/-- Pipeline stage masks that occur in `DrawFrame`. -/
inductive Stage where
  | colorAttachmentOutput -- `VK_PIPELINE_STAGE_COLOR_ATTACHMENT_OUTPUT_BIT`
deriving DecidableEq, Repr

/-- The three `RUNTIME_ERROR` sites of `DrawFrame`. -/
inductive Fatal where
  | acquire -- "Failed to acquire swap chain image!"
  | submit  -- "Failed to submit draw command buffer!"
  | present -- "Failed to present swap chain image!"
deriving DecidableEq, Repr

/-- One externally visible call.  Fences and command buffers are named by the
index of the slot that owns them (`inFlightFences[i]`, `commands.GetBuffer(i)`). -/
inductive Op where
  | waitForFences (fence : Nat)                        -- `vkWaitForFences(.., &inFlightFences[fence], ..)`
  | getNextImage (signal : Sem)                        -- `swapchain.GetNextImage(device, signal, imageIndex)`
  | resetFences (fence : Nat)                          -- `vkResetFences`
  | resetBuffer (imageIndex slot : Nat)                -- `commands.ResetBuffer(imageIndex, slot)`
  | renderCallback (buffer imageIndex slot : Nat)      -- `renderCallback(state, GetBuffer(buffer), imageIndex, slot)`
  | queueSubmit (queue : Queue) (wait : List Sem) (stages : List Stage)
      (buffers : List Nat) (signal : List Sem) (fence : Nat) -- `vkQueueSubmit`
  | queuePresent (queue : Queue) (wait : List Sem) (imageIndex : Nat) -- `vkQueuePresentKHR`
  | getDrawableSize (size : Size)                      -- `SDL_Vulkan_GetDrawableSize`, with what it reported
  | waitEvent                                          -- `SDL_WaitEvent(nullptr)`
  | recreate (width height : Int)                      -- `swapchain.Recreate(.., width, height)`
  | resizeCallback (width height : Int)                -- `resizeCallback(state, width, height)`
  | runtimeError (site : Fatal)                        -- `RUNTIME_ERROR(..)`
  | swapchainCleanup                                   -- `swapchain.Cleanup(allocator, device)`
  | cleanupCallback                                    -- `cleanupCallback(vulkanState)`
  | destroyAllocator                                   -- `vmaDestroyAllocator`
  | destroySemaphore (sem : Sem)                       -- `vkDestroySemaphore`
  | destroyFence (fence : Nat)                         -- `vkDestroyFence`
  | commandsDestroy                                    -- `commands.Destroy(device)`: frees the command pool
  | destroyDevice                                      -- `vkDestroyDevice`
  | destroyDebugMessenger                              -- `vkDestroyDebugUtilsMessengerEXT` through its looked-up pointer
  | destroySurface                                     -- `vkDestroySurfaceKHR`
  | destroyInstance                                    -- `vkDestroyInstance`
  | destroyWindow                                      -- `SDL_DestroyWindow`
  | unloadLibrary                                      -- `SDL_Vulkan_UnloadLibrary`
  | sdlQuit                                            -- `SDL_Quit`
deriving DecidableEq, Repr

/-! ## The window as the renderer sees it -/

/-- The drawable size of the window over time, as a script: `size` is what the
next `SDL_Vulkan_GetDrawableSize` reports, `pending` what the calls after it
report, one entry per call.  Once `pending` is used up the window keeps its
size. -/
structure Platform where
  size : Size
  pending : List Size
deriving DecidableEq, Repr

/-- One call of `SDL_Vulkan_GetDrawableSize`: the reported size and the window afterwards. -/
def Platform.poll (p : Platform) : Size × Platform :=
  match p.pending with
  | [] => (p.size, p)
  | next :: rest => (p.size, { size := next, pending := rest })

/-- The whole script of a window: its sizes in the order the polls report them. -/
def Platform.script (p : Platform) : List Size := p.size :: p.pending

/-- The loop condition of `WaitWhileMinimized`: `width == 0 || height == 0`. -/
def Size.minimized (sz : Size) : Bool := sz.width == 0 || sz.height == 0

/-- The `while` loop of `WaitWhileMinimized` (lines 142-145), run for at most
`fuel` evaluations of its condition.  `sz` holds the locals `width`, `height`.
`none`: the condition was still true when the fuel ran out.  Each
`SDL_WaitEvent` is recorded and taken to return. -/
def minimizedLoop : Nat → Size → Platform → List Op → Option (Platform × List Op)
  | 0, _, _, _ => none
  | fuel + 1, sz, p, tr =>
    if sz.width == 0 || sz.height == 0 then
      let polled := p.poll
      minimizedLoop fuel polled.1 polled.2 (tr ++ [Op.getDrawableSize polled.1, Op.waitEvent])
    else
      some (p, tr)

/-- `VKRenderer::WaitWhileMinimized` (lines 138-146).  The loop gets one
evaluation of its condition per entry of the script: after that many polls the
window has reached its final size, so a loop that has not left by then never
leaves (`minimizedLoop_stuck`), which is the result `none`. -/
def WaitWhileMinimized (p : Platform) : Option (Platform × List Op) :=
  let polled := p.poll
  minimizedLoop (p.pending.length + 1) polled.1 polled.2 [Op.getDrawableSize polled.1]

/-! ## Renderer state and one tick -/

/-- The members of `VKRenderer` that `DrawFrame` reads or writes, and the window. -/
structure State where
  currentFrame : Nat
  maxFramesInFlight : Nat
  framebufferResized : Bool
  window : Platform
deriving DecidableEq, Repr

/-- What the environment answers during one `DrawFrame`. -/
structure FrameEnv where
  acquire : VkResult  -- the result of `swapchain.GetNextImage`
  imageIndex : Nat    -- the image index it wrote
  submit : VkResult   -- the result of `vkQueueSubmit`
  present : VkResult  -- the result of `vkQueuePresentKHR`
deriving DecidableEq, Repr

/-- How a call ends. -/
inductive Outcome where
  | returned        -- the function returned to its caller
  | fatal (site : Fatal) -- it left through `RUNTIME_ERROR`
  | blocked         -- it never leaves the loop of `WaitWhileMinimized`
deriving DecidableEq, Repr

/-- The result of one `DrawFrame`: how it ended, the state it left, the calls it made. -/
structure Tick where
  outcome : Outcome
  state : State
  trace : List Op
deriving DecidableEq, Repr

/-- Modelled from the spec: the macro `RUNTIME_ERROR` is defined in
`VKRenderer.hpp`, which is not among the sources.  The spec (section 7) calls
these errors "fatal; logged and the process aborts": control leaves the
function at the macro and nothing after it runs. -/
def RUNTIME_ERROR (site : Fatal) (s : State) (tr : List Op) : Tick :=
  { outcome := Outcome.fatal site, state := s, trace := tr ++ [Op.runtimeError site] }

/-- The rebuild block that `DrawFrame` contains twice, word for word (lines
375-382 and 431-438): `WaitWhileMinimized`, a fresh `SDL_Vulkan_GetDrawableSize`
into new locals, `swapchain.Recreate` and `resizeCallback` with those locals.
`none` when `WaitWhileMinimized` never returns. -/
def rebuildSwapchain (p : Platform) : Option (Platform × List Op) :=
  match WaitWhileMinimized p with
  | none => none
  | some (p1, waited) =>
    let polled := p1.poll
    some (polled.2, waited ++ [Op.getDrawableSize polled.1,
      Op.recreate polled.1.width polled.1.height,
      Op.resizeCallback polled.1.width polled.1.height])

/-- The last statement of `DrawFrame` (line 443), in 32-bit unsigned arithmetic:
`currentFrame = (currentFrame + 1) % vulkanState.maxFramesInFlight`. -/
def advance (s : State) : State :=
  { s with currentFrame := (s.currentFrame + 1) % 4294967296 % s.maxFramesInFlight }

/-- `VKRenderer::DrawFrame` (lines 362-444). -/
def DrawFrame (s : State) (env : FrameEnv) : Tick :=
  let slot := s.currentFrame
  let acquired : List Op := [Op.waitForFences slot, Op.getNextImage (Sem.imageAvailable slot)]
  if env.acquire == VK_ERROR_OUT_OF_DATE_KHR then
    match rebuildSwapchain s.window with
    | none => { outcome := Outcome.blocked, state := s, trace := acquired }
    | some (w, ops) =>
      { outcome := Outcome.returned, state := { s with window := w }, trace := acquired ++ ops }
  else if env.acquire != VK_SUCCESS && env.acquire != VK_SUBOPTIMAL_KHR then
    RUNTIME_ERROR Fatal.acquire s acquired
  else
    let submitted : List Op := acquired ++
      [Op.resetFences slot,
       Op.resetBuffer env.imageIndex slot,
       Op.renderCallback slot env.imageIndex slot,
       Op.queueSubmit Queue.graphics [Sem.imageAvailable slot] [Stage.colorAttachmentOutput]
         [slot] [Sem.renderFinished slot] slot]
    if env.submit != VK_SUCCESS then
      RUNTIME_ERROR Fatal.submit s submitted
    else
      let presented : List Op := submitted ++
        [Op.queuePresent Queue.present [Sem.renderFinished slot] env.imageIndex]
      if env.present == VK_ERROR_OUT_OF_DATE_KHR || env.present == VK_SUBOPTIMAL_KHR
          || s.framebufferResized then
        let s1 := { s with framebufferResized := false }
        match rebuildSwapchain s1.window with
        | none => { outcome := Outcome.blocked, state := s1, trace := presented }
        | some (w, ops) =>
          { outcome := Outcome.returned, state := advance { s1 with window := w },
            trace := presented ++ ops }
      else if env.present != VK_SUCCESS then
        RUNTIME_ERROR Fatal.present s presented
      else
        { outcome := Outcome.returned, state := advance s, trace := presented }

/-- Consecutive calls of `DrawFrame`, one per entry of `envs`, each starting in
the state the one before left, as the loop of `MainLoop` makes them.  A tick
that does not return ends the run.  One `Tick` per call, in order. -/
def DrawFrames : State → List FrameEnv → List Tick
  | _, [] => []
  | s, env :: rest =>
    let t := DrawFrame s env
    match t.outcome with
    | Outcome.returned => t :: DrawFrames t.state rest
    | _ => [t]

/-- The state a run leaves: that of its last tick, or the starting state when
no tick ran. -/
def stateAfter (s : State) : List Tick → State
  | [] => s
  | t :: rest => stateAfter t.state rest

/-! ## Shutdown -/

/-- The file-scope helper `DestroyDebugUtilsMessengerEXT` (lines 26-33): it
calls the function `vkGetInstanceProcAddr` found, when it found one. -/
def DestroyDebugUtilsMessengerEXT (procFound : Bool) : List Op :=
  if procFound then [Op.destroyDebugMessenger] else []

/-- The `for` loop of `Cleanup` (lines 155-159), from counter value `i` on. -/
def destroySyncObjects (maxFramesInFlight : Nat) (i : Nat) : List Op :=
  if i < maxFramesInFlight then
    [Op.destroySemaphore (Sem.renderFinished i),
     Op.destroySemaphore (Sem.imageAvailable i),
     Op.destroyFence i] ++ destroySyncObjects maxFramesInFlight (i + 1)
  else
    []
termination_by maxFramesInFlight - i

/-- `VKRenderer::Cleanup` (lines 148-175).  `enableValidationLayers` is the
compile-time constant of lines 7-11, `procFound` whether the lookup inside
`DestroyDebugUtilsMessengerEXT` succeeds. -/
def Cleanup (maxFramesInFlight : Nat) (enableValidationLayers procFound : Bool) : List Op :=
  [Op.swapchainCleanup, Op.cleanupCallback, Op.destroyAllocator]
    ++ destroySyncObjects maxFramesInFlight 0
    ++ [Op.commandsDestroy, Op.destroyDevice]
    ++ (if enableValidationLayers then DestroyDebugUtilsMessengerEXT procFound else [])
    ++ [Op.destroySurface, Op.destroyInstance, Op.destroyWindow, Op.unloadLibrary, Op.sdlQuit]

/-! ## Reading a trace -/

/-- The sizes that the calls of `SDL_Vulkan_GetDrawableSize` in a trace reported, in order. -/
def polledSizes : List Op → List Size
  | [] => []
  | Op.getDrawableSize sz :: rest => sz :: polledSizes rest
  | _ :: rest => polledSizes rest

def Op.isFenceReset : Op → Bool
  | Op.resetFences _ => true
  | _ => false

def Op.isBufferReset : Op → Bool
  | Op.resetBuffer _ _ => true
  | _ => false

def Op.isRender : Op → Bool
  | Op.renderCallback _ _ _ => true
  | _ => false

def Op.isSubmit : Op → Bool
  | Op.queueSubmit _ _ _ _ _ _ => true
  | _ => false

def Op.isPresent : Op → Bool
  | Op.queuePresent _ _ _ => true
  | _ => false

def Op.isRecreate : Op → Bool
  | Op.recreate _ _ => true
  | _ => false

def Op.isResize : Op → Bool
  | Op.resizeCallback _ _ => true
  | _ => false

/-- The calls that `WaitWhileMinimized` makes. -/
def Op.isWaiting : Op → Bool
  | Op.getDrawableSize _ => true
  | Op.waitEvent => true
  | _ => false

/-- The calls of the loop body of `WaitWhileMinimized`, one round per size in `zs`. -/
def iterations : List Size → List Op
  | [] => []
  | z :: zs => Op.getDrawableSize z :: Op.waitEvent :: iterations zs

/-- The first two calls of every tick on slot `slot` (lines 368-372). -/
def acquiredOps (slot : Nat) : List Op :=
  [Op.waitForFences slot, Op.getNextImage (Sem.imageAvailable slot)]

/-- The calls of a tick on slot `slot` with image `k`, up to and including the submit
(lines 368-410). -/
def submittedOps (slot k : Nat) : List Op :=
  [Op.waitForFences slot,
   Op.getNextImage (Sem.imageAvailable slot),
   Op.resetFences slot,
   Op.resetBuffer k slot,
   Op.renderCallback slot k slot,
   Op.queueSubmit Queue.graphics [Sem.imageAvailable slot] [Stage.colorAttachmentOutput]
     [slot] [Sem.renderFinished slot] slot]

/-- The calls of a tick on slot `slot` with image `k`, up to and including the present
(lines 368-427). -/
def presentedOps (slot k : Nat) : List Op :=
  submittedOps slot k ++ [Op.queuePresent Queue.present [Sem.renderFinished slot] k]

/-- The condition of line 429, under which `DrawFrame` rebuilds after presenting. -/
def presentStale (s : State) (env : FrameEnv) : Bool :=
  env.present == VK_ERROR_OUT_OF_DATE_KHR || env.present == VK_SUBOPTIMAL_KHR
    || s.framebufferResized

/-- The answers of a tick in which acquire, submit and present all succeed, with image `k`. -/
def FrameEnv.ok (k : Nat) : FrameEnv :=
  { acquire := VK_SUCCESS, imageIndex := k, submit := VK_SUCCESS, present := VK_SUCCESS }

/-- The answers of a tick whose acquire reports out-of-date. -/
def FrameEnv.stale : FrameEnv :=
  { acquire := VK_ERROR_OUT_OF_DATE_KHR, imageIndex := 0, submit := VK_SUCCESS,
    present := VK_SUCCESS }

def Op.isSemaphoreDestroy : Op → Bool
  | Op.destroySemaphore _ => true
  | _ => false

def Op.isFenceDestroy : Op → Bool
  | Op.destroyFence _ => true
  | _ => false

/-- The seven kinds of call a frame is made of: fence wait, acquire, fence reset,
buffer reset, render callback, submit, present. -/
def Op.isFrameCall : Op → Bool
  | Op.waitForFences _ => true
  | Op.getNextImage _ => true
  | Op.resetFences _ => true
  | Op.resetBuffer _ _ => true
  | Op.renderCallback _ _ _ => true
  | Op.queueSubmit _ _ _ _ _ _ => true
  | Op.queuePresent _ _ _ => true
  | _ => false

/-- The three releases of slot `i`, in the order of the loop body of `Cleanup`. -/
def slotReleases (i : Nat) : List Op :=
  [Op.destroySemaphore (Sem.renderFinished i),
   Op.destroySemaphore (Sem.imageAvailable i),
   Op.destroyFence i]

/-- The slot a tick worked on: the fence its first call waited for. -/
def Tick.slot (t : Tick) : Option Nat :=
  match t.trace with
  | Op.waitForFences i :: _ => some i
  | _ => none

/-- A state `DrawFrame` can run in: `currentFrame` indexes the per-slot vectors
of length `maxFramesInFlight`, which is a `uint32_t`. -/
def State.WellFormed (s : State) : Prop :=
  s.currentFrame < s.maxFramesInFlight ∧ s.maxFramesInFlight < 4294967296

instance (s : State) : Decidable s.WellFormed := by
  unfold State.WellFormed; infer_instance

/-! ## Synchronization objects and the fences over time -/

/-- A fence as the host and the device see it: whether it is signalled, and
how many submissions that were handed this fence have not retired yet. -/
structure Fence where
  signalled : Bool
  unretired : Nat
deriving DecidableEq, Repr

/-- The three per-slot vectors of `VKRenderer`. -/
structure SyncObjects where
  imageAvailableSemaphores : List Sem
  renderFinishedSemaphores : List Sem
  inFlightFences : List Fence
deriving DecidableEq, Repr

/-- `VKRenderer::CreateSyncObjects` (lines 338-360): the three vectors are
resized to `maxFramesInFlight` and every entry is created, the fences with
`VK_FENCE_CREATE_SIGNALED_BIT` and nothing submitted on them.  The creation
calls are taken to succeed; a failure ends in `RUNTIME_ERROR` before any tick. -/
def CreateSyncObjects (maxFramesInFlight : Nat) : SyncObjects :=
  { imageAvailableSemaphores := (List.range maxFramesInFlight).map Sem.imageAvailable,
    renderFinishedSemaphores := (List.range maxFramesInFlight).map Sem.renderFinished,
    inFlightFences := List.replicate maxFramesInFlight { signalled := true, unretired := 0 } }

/-- The names of the three per-slot vectors. -/
inductive PerSlot where
  | inFlightFences
  | imageAvailableSemaphores
  | renderFinishedSemaphores
deriving DecidableEq, Repr

/-- The length of one of the three vectors. -/
def SyncObjects.size (so : SyncObjects) : PerSlot → Nat
  | PerSlot.inFlightFences => so.inFlightFences.length
  | PerSlot.imageAvailableSemaphores => so.imageAvailableSemaphores.length
  | PerSlot.renderFinishedSemaphores => so.renderFinishedSemaphores.length

/-- The vector and index a semaphore handle was read from. -/
def Sem.lookup : Sem → PerSlot × Nat
  | Sem.imageAvailable i => (PerSlot.imageAvailableSemaphores, i)
  | Sem.renderFinished i => (PerSlot.renderFinishedSemaphores, i)

/-- The reads `vector[index]` of the three per-slot vectors that produce the
arguments of a call of `DrawFrame`. -/
def Op.lookups : Op → List (PerSlot × Nat)
  | Op.waitForFences i => [(PerSlot.inFlightFences, i)]
  | Op.getNextImage sem => [sem.lookup]
  | Op.resetFences i => [(PerSlot.inFlightFences, i)]
  | Op.queueSubmit _ wait _ _ signal fence =>
    wait.map Sem.lookup ++ signal.map Sem.lookup ++ [(PerSlot.inFlightFences, fence)]
  | Op.queuePresent _ wait _ => wait.map Sem.lookup
  | _ => []

/-- What one call of a tick that returns does to the fences.  `vkWaitForFences`
(no timeout, result unused by the source) gets past a signalled fence only;
`vkResetFences` unsignals; a `vkQueueSubmit` that succeeded hands its fence to
one more submission.  `none`: the wait does not return in this state, or the
index is outside the vector. -/
def applyOp (fences : List Fence) : Op → Option (List Fence)
  | Op.waitForFences i =>
    match fences[i]? with
    | some f => if f.signalled then some fences else none
    | none => none
  | Op.resetFences i =>
    match fences[i]? with
    | some f => some (fences.set i { f with signalled := false })
    | none => none
  | Op.queueSubmit _ _ _ _ _ i =>
    match fences[i]? with
    | some f => some (fences.set i { f with unretired := f.unretired + 1 })
    | none => none
  | _ => some fences

/-- The calls of a trace, applied to the fences in order. -/
def applyOps : List Fence → List Op → Option (List Fence)
  | fences, [] => some fences
  | fences, op :: rest =>
    match applyOp fences op with
    | none => none
    | some fences1 => applyOps fences1 rest

/-- The renderer together with its fences. -/
structure Machine where
  renderer : State
  fences : List Fence
deriving DecidableEq, Repr

/-- What can happen to the machine between and during the iterations of `MainLoop`. -/
inductive Event where
  | tick (env : FrameEnv) -- one `DrawFrame` that returns, with these answers
  | retire (slot : Nat)   -- the device finishes a submission made with `inFlightFences[slot]`
  | windowResized         -- `SDL_WINDOWEVENT_RESIZED` polled by `MainLoop` (lines 119-122)
deriving DecidableEq, Repr

/-- One event.  `none` when the event cannot happen in this state: the tick
does not return (its fence wait does not, it ends in `RUNTIME_ERROR`, which ends
the process, or it stays in the minimized wait), or nothing is left to retire on
the slot.  A retiring submission signals its fence. -/
def Machine.step (m : Machine) : Event → Option Machine
  | Event.tick env =>
    let t := DrawFrame m.renderer env
    match t.outcome with
    | Outcome.returned =>
      match applyOps m.fences t.trace with
      | some fences1 => some { renderer := t.state, fences := fences1 }
      | none => none
    | _ => none
  | Event.retire slot =>
    match m.fences[slot]? with
    | some f =>
      if 0 < f.unretired then
        some { m with
          fences := m.fences.set slot { signalled := true, unretired := f.unretired - 1 } }
      else none
    | none => none
  | Event.windowResized =>
    some { m with renderer := { m.renderer with framebufferResized := true } }

/-- A sequence of events, from left to right. -/
def Machine.run : Machine → List Event → Option Machine
  | m, [] => some m
  | m, ev :: rest =>
    match m.step ev with
    | none => none
    | some m1 => m1.run rest

/-- The machine before the first tick: the renderer in state `s`, the fences as
`CreateSyncObjects` made them. -/
def Machine.start (s : State) : Machine :=
  { renderer := s, fences := (CreateSyncObjects s.maxFramesInFlight).inFlightFences }

/-- A fence is either signalled with nothing unretired on it, or unsignalled
with exactly one unretired submission. -/
def Fence.Consistent (f : Fence) : Prop :=
  (f.signalled = true ∧ f.unretired = 0) ∨ (f.signalled = false ∧ f.unretired = 1)

end PxlRnd

namespace PxlRnd

/-! ## The minimized wait -/

theorem poll_fst (p : Platform) : p.poll.1 = p.size := by
  unfold Platform.poll; split <;> rfl

theorem poll_nil (sz : Size) : (Platform.mk sz []).poll = (sz, Platform.mk sz []) := rfl

theorem poll_cons (sz next : Size) (rest : List Size) :
    (Platform.mk sz (next :: rest)).poll = (sz, Platform.mk next rest) := rfl

theorem minimized_iff (sz : Size) : sz.minimized = true ↔ sz.width = 0 ∨ sz.height = 0 := by
  simp [Size.minimized]

theorem not_minimized_iff (sz : Size) :
    sz.minimized = false ↔ sz.width ≠ 0 ∧ sz.height ≠ 0 := by
  simp [Size.minimized]

theorem minimizedLoop_succ (fuel : Nat) (sz : Size) (p : Platform) (tr : List Op) :
    minimizedLoop (fuel + 1) sz p tr =
      if sz.minimized then
        minimizedLoop fuel p.poll.1 p.poll.2 (tr ++ [Op.getDrawableSize p.poll.1, Op.waitEvent])
      else some (p, tr) := by
  simp [minimizedLoop, Size.minimized]

theorem iterations_cons (z : Size) (zs : List Size) :
    iterations (z :: zs) = Op.getDrawableSize z :: Op.waitEvent :: iterations zs := rfl

theorem polledSizes_append (a b : List Op) :
    polledSizes (a ++ b) = polledSizes a ++ polledSizes b := by
  induction a with
  | nil => rfl
  | cons x xs ih => cases x <;> simp [polledSizes, ih]

theorem polledSizes_iterations (zs : List Size) : polledSizes (iterations zs) = zs := by
  induction zs with
  | nil => rfl
  | cons z zs ih => simp only [iterations_cons, polledSizes, ih]

theorem iterations_isWaiting (zs : List Size) : ∀ op ∈ iterations zs, op.isWaiting = true := by
  induction zs with
  | nil => simp [iterations]
  | cons z zs ih =>
    intro op hop
    simp only [iterations_cons, List.mem_cons] at hop
    rcases hop with h | h | h
    · subst h; rfl
    · subst h; rfl
    · exact ih op h

/-- A loop that is out of script with a minimized window never leaves, whatever the fuel. -/
theorem minimizedLoop_final (fuel : Nat) (sz fin : Size) (tr : List Op)
    (hsz : sz.minimized = true) (hfin : fin.minimized = true) :
    minimizedLoop fuel sz (Platform.mk fin []) tr = none := by
  induction fuel generalizing sz tr with
  | zero => rfl
  | succ n ih =>
    rw [minimizedLoop_succ, if_pos hsz, poll_nil]
    exact ih fin _ hfin

/-- A loop over a script of minimized sizes only never leaves, whatever the fuel. -/
theorem minimizedLoop_stuck (fuel : Nat) (sz : Size) (p : Platform) (tr : List Op)
    (hsz : sz.minimized = true) (hall : ∀ x ∈ p.script, x.minimized = true) :
    minimizedLoop fuel sz p tr = none := by
  obtain ⟨cur, pend⟩ := p
  induction pend generalizing fuel sz cur tr with
  | nil => exact minimizedLoop_final fuel sz cur tr hsz (hall cur (by simp [Platform.script]))
  | cons next rest ih =>
    cases fuel with
    | zero => rfl
    | succ n =>
      rw [minimizedLoop_succ, if_pos hsz, poll_cons]
      refine ih n cur _ (hall cur (by simp [Platform.script])) next ?_
      intro x hx
      exact hall x (by simp [Platform.script] at hx ⊢; tauto)

/-- More fuel never changes a result the loop has reached. -/
theorem minimizedLoop_mono (fuel extra : Nat) (sz : Size) (p : Platform) (tr : List Op)
    (r : Platform × List Op) (h : minimizedLoop fuel sz p tr = some r) :
    minimizedLoop (fuel + extra) sz p tr = some r := by
  induction fuel generalizing sz p tr with
  | zero => simp [minimizedLoop] at h
  | succ n ih =>
    rw [show n + 1 + extra = (n + extra) + 1 by omega, minimizedLoop_succ]
    rw [minimizedLoop_succ] at h
    by_cases hm : sz.minimized = true
    · rw [if_pos hm] at h ⊢
      exact ih _ _ _ h
    · rw [if_neg hm] at h ⊢
      exact h

/-- What the loop has done when it leaves: it evaluated its condition on `sz`
and then on each polled size `zs`, in script order; all but the last were
minimized, the last was not. -/
theorem minimizedLoop_some (fuel : Nat) (sz : Size) (p p1 : Platform) (tr tr1 : List Op)
    (h : minimizedLoop fuel sz p tr = some (p1, tr1)) :
    ∃ zs : List Size, tr1 = tr ++ iterations zs ∧ zs <+: p.script ∧
      (∀ x ∈ (sz :: zs).dropLast, x.minimized = true) ∧
      ((sz :: zs).getLast (List.cons_ne_nil sz zs)).minimized = false := by
  induction fuel generalizing sz p tr with
  | zero => simp [minimizedLoop] at h
  | succ n ih =>
    rw [minimizedLoop_succ] at h
    by_cases hm : sz.minimized = true
    · rw [if_pos hm] at h
      obtain ⟨zs, htr, hpre, hall, hlast⟩ := ih _ _ _ h
      obtain ⟨cur, pend⟩ := p
      have hzs : zs <+: pend := by
        cases pend with
        | nil =>
          rw [poll_nil] at hpre hall hlast
          simp only [Platform.script, List.prefix_cons_iff] at hpre
          rcases hpre with rfl | ⟨t, rfl, ht⟩
          · exact List.nil_prefix
          · simp only [List.prefix_nil] at ht
            subst ht
            have h1 := hall cur (by simp)
            simp at hlast
            rw [h1] at hlast
            cases hlast
        | cons next rest =>
          rw [poll_cons] at hpre
          exact hpre
      refine ⟨cur :: zs, ?_, ?_, ?_, ?_⟩
      · rw [htr, poll_fst]
        simp [iterations_cons]
      · simpa [Platform.script] using hzs
      · intro x hx
        rw [List.dropLast_cons_of_ne_nil (List.cons_ne_nil _ _)] at hx
        rcases List.mem_cons.1 hx with rfl | hx
        · exact hm
        · rw [poll_fst] at hall
          exact hall x hx
      · rw [List.getLast_cons (List.cons_ne_nil _ _)]
        rw [poll_fst] at hlast
        simpa using hlast
    · rw [if_neg hm] at h
      cases h
      exact ⟨[], by simp [iterations], List.nil_prefix, by simp, by simpa using hm⟩

/-- With a size that is not minimized somewhere ahead, the loop leaves once
its fuel covers the script. -/
theorem minimizedLoop_enough (pend : List Size) (cur sz : Size) (tr : List Op) (fuel : Nat)
    (hfuel : pend.length + 2 ≤ fuel)
    (h : sz.minimized = false ∨ ∃ x ∈ cur :: pend, x.minimized = false) :
    ∃ r, minimizedLoop fuel sz (Platform.mk cur pend) tr = some r := by
  induction pend generalizing cur sz tr fuel with
  | nil =>
    obtain ⟨n, rfl⟩ : ∃ n, fuel = n + 2 := ⟨fuel - 2, by simp at hfuel; omega⟩
    rw [minimizedLoop_succ]
    by_cases hm : sz.minimized = true
    · rw [if_pos hm, poll_nil, minimizedLoop_succ]
      have hc : cur.minimized = false := by
        rcases h with h | ⟨x, hx, hxm⟩
        · rw [hm] at h; cases h
        · simp at hx; subst hx; exact hxm
      simp [hc]
    · rw [if_neg hm]; exact ⟨_, rfl⟩
  | cons next rest ih =>
    obtain ⟨n, rfl⟩ : ∃ n, fuel = n + 1 := ⟨fuel - 1, by simp at hfuel; omega⟩
    rw [minimizedLoop_succ]
    by_cases hm : sz.minimized = true
    · rw [if_pos hm, poll_cons]
      apply ih
      · simp at hfuel ⊢; omega
      · rcases h with h | ⟨x, hx, hxm⟩
        · rw [hm] at h; cases h
        · rcases List.mem_cons.1 hx with rfl | hx
          · exact Or.inl hxm
          · exact Or.inr ⟨x, hx, hxm⟩
    · rw [if_neg hm]; exact ⟨_, rfl⟩

/-- `WaitWhileMinimized` returns exactly when the script holds a size that is not minimized. -/
theorem WaitWhileMinimized_returns (p : Platform) (h : ∃ x ∈ p.script, x.minimized = false) :
    ∃ r, WaitWhileMinimized p = some r := by
  obtain ⟨cur, pend⟩ := p
  cases pend with
  | nil =>
    obtain ⟨x, hx, hxm⟩ := h
    simp [Platform.script] at hx
    subst hx
    simp [WaitWhileMinimized, poll_nil, minimizedLoop_succ, hxm]
  | cons next rest =>
    simp only [WaitWhileMinimized, poll_cons, List.length_cons]
    apply minimizedLoop_enough rest next cur _ _ (by omega)
    obtain ⟨x, hx, hxm⟩ := h
    rcases List.mem_cons.1 hx with rfl | hx
    · exact Or.inl hxm
    · exact Or.inr ⟨x, hx, hxm⟩

/-- Over a script of minimized sizes only, the loop of `WaitWhileMinimized`
never leaves, whatever the fuel; `WaitWhileMinimized` is then `none`. -/
theorem WaitWhileMinimized_blocks (p : Platform) (h : ∀ x ∈ p.script, x.minimized = true)
    (fuel : Nat) :
    minimizedLoop fuel p.poll.1 p.poll.2 [Op.getDrawableSize p.poll.1] = none := by
  apply minimizedLoop_stuck
  · rw [poll_fst]; exact h _ (by simp [Platform.script])
  · obtain ⟨cur, pend⟩ := p
    cases pend with
    | nil => simpa [poll_nil] using h
    | cons next rest =>
      intro x hx
      rw [poll_cons] at hx
      exact h x (List.mem_cons_of_mem _ hx)

theorem WaitWhileMinimized_none_iff (p : Platform) :
    WaitWhileMinimized p = none ↔ ∀ x ∈ p.script, x.minimized = true := by
  constructor
  · intro h x hx
    by_contra hxm
    obtain ⟨r, hr⟩ := WaitWhileMinimized_returns p ⟨x, hx, by simpa using hxm⟩
    rw [h] at hr
    cases hr
  · intro h
    exact WaitWhileMinimized_blocks p h _

/-- What `WaitWhileMinimized` has done when it returns: it polled the sizes
`p.size :: zs`, a beginning of the script, with one `SDL_WaitEvent` after each
poll but the first; all but the last were minimized, the last was not. -/
theorem WaitWhileMinimized_some (p p1 : Platform) (tr : List Op)
    (h : WaitWhileMinimized p = some (p1, tr)) :
    ∃ zs : List Size, tr = Op.getDrawableSize p.size :: iterations zs ∧
      (p.size :: zs) <+: p.script ∧
      (∀ x ∈ (p.size :: zs).dropLast, x.minimized = true) ∧
      ((p.size :: zs).getLast (List.cons_ne_nil p.size zs)).minimized = false := by
  unfold WaitWhileMinimized at h
  obtain ⟨zs, htr, hpre, hall, hlast⟩ := minimizedLoop_some _ _ _ _ _ _ h
  rw [poll_fst] at htr hall hlast
  refine ⟨zs, by simpa using htr, ?_, hall, hlast⟩
  obtain ⟨cur, pend⟩ := p
  cases pend with
  | nil =>
    rw [poll_nil] at hpre
    simp only [Platform.script, List.prefix_cons_iff] at hpre
    rcases hpre with rfl | ⟨t, rfl, ht⟩
    · simp [Platform.script]
    · simp only [List.prefix_nil] at ht
      subst ht
      have h1 := hall cur (by simp)
      simp at hlast
      simp at h1
      rw [h1] at hlast
      cases hlast
  | cons next rest =>
    rw [poll_cons] at hpre
    simpa [Platform.script] using hpre

/-- Every call `WaitWhileMinimized` makes is a poll of the size or a wait for an event. -/
theorem WaitWhileMinimized_isWaiting (p p1 : Platform) (tr : List Op)
    (h : WaitWhileMinimized p = some (p1, tr)) : ∀ op ∈ tr, op.isWaiting = true := by
  obtain ⟨zs, rfl, -⟩ := WaitWhileMinimized_some p p1 tr h
  intro op hop
  rcases List.mem_cons.1 hop with rfl | hop
  · rfl
  · exact iterations_isWaiting zs op hop

/-! ## The rebuild block -/

theorem rebuildSwapchain_none_iff (p : Platform) :
    rebuildSwapchain p = none ↔ ∀ x ∈ p.script, x.minimized = true := by
  rw [← WaitWhileMinimized_none_iff]
  unfold rebuildSwapchain
  split <;> simp_all

theorem rebuildSwapchain_some (p w : Platform) (ops : List Op)
    (h : rebuildSwapchain p = some (w, ops)) :
    ∃ p1 waited, WaitWhileMinimized p = some (p1, waited) ∧ w = p1.poll.2 ∧
      ops = waited ++ [Op.getDrawableSize p1.size, Op.recreate p1.size.width p1.size.height,
        Op.resizeCallback p1.size.width p1.size.height] := by
  unfold rebuildSwapchain at h
  split at h
  · cases h
  · rename_i p1 waited hw
    simp only [Option.some.injEq, Prod.mk.injEq] at h
    refine ⟨p1, waited, hw, h.1.symm, ?_⟩
    rw [← h.2, poll_fst]

theorem rebuildSwapchain_returns (p : Platform) (h : ∃ x ∈ p.script, x.minimized = false) :
    ∃ w ops, rebuildSwapchain p = some (w, ops) := by
  cases hr : rebuildSwapchain p with
  | none =>
    obtain ⟨x, hx, hxm⟩ := h
    rw [(rebuildSwapchain_none_iff p).1 hr x hx] at hxm
    cases hxm
  | some r => exact ⟨r.1, r.2, rfl⟩

/-! ## The branches of `DrawFrame` -/

@[simp] theorem success_ne_outOfDate : VK_SUCCESS ≠ VK_ERROR_OUT_OF_DATE_KHR := by decide
@[simp] theorem suboptimal_ne_outOfDate : VK_SUBOPTIMAL_KHR ≠ VK_ERROR_OUT_OF_DATE_KHR := by decide
@[simp] theorem suboptimal_ne_success : VK_SUBOPTIMAL_KHR ≠ VK_SUCCESS := by decide
@[simp] theorem success_ne_suboptimal : VK_SUCCESS ≠ VK_SUBOPTIMAL_KHR := by decide
@[simp] theorem outOfDate_ne_success : VK_ERROR_OUT_OF_DATE_KHR ≠ VK_SUCCESS := by decide
@[simp] theorem deviceLost_ne_success : VK_ERROR_DEVICE_LOST ≠ VK_SUCCESS := by decide
@[simp] theorem deviceLost_ne_suboptimal : VK_ERROR_DEVICE_LOST ≠ VK_SUBOPTIMAL_KHR := by decide
@[simp] theorem deviceLost_ne_outOfDate : VK_ERROR_DEVICE_LOST ≠ VK_ERROR_OUT_OF_DATE_KHR := by
  decide

theorem DrawFrame_stale (s : State) (env : FrameEnv)
    (h : env.acquire = VK_ERROR_OUT_OF_DATE_KHR) :
    DrawFrame s env =
      match rebuildSwapchain s.window with
      | none => { outcome := Outcome.blocked, state := s, trace := acquiredOps s.currentFrame }
      | some (w, ops) =>
        { outcome := Outcome.returned, state := { s with window := w },
          trace := acquiredOps s.currentFrame ++ ops } := by
  simp [DrawFrame, h, acquiredOps]

theorem DrawFrame_acquire_fatal (s : State) (env : FrameEnv)
    (h1 : env.acquire ≠ VK_ERROR_OUT_OF_DATE_KHR) (h2 : env.acquire ≠ VK_SUCCESS)
    (h3 : env.acquire ≠ VK_SUBOPTIMAL_KHR) :
    DrawFrame s env = RUNTIME_ERROR Fatal.acquire s (acquiredOps s.currentFrame) := by
  simp [DrawFrame, h1, h2, h3, acquiredOps]

theorem DrawFrame_submit_fatal (s : State) (env : FrameEnv)
    (hacq : env.acquire = VK_SUCCESS ∨ env.acquire = VK_SUBOPTIMAL_KHR)
    (hsub : env.submit ≠ VK_SUCCESS) :
    DrawFrame s env =
      RUNTIME_ERROR Fatal.submit s (submittedOps s.currentFrame env.imageIndex) := by
  rcases hacq with h | h <;>
    simp [DrawFrame, h, hsub, submittedOps]

theorem DrawFrame_present_stale (s : State) (env : FrameEnv)
    (hacq : env.acquire = VK_SUCCESS ∨ env.acquire = VK_SUBOPTIMAL_KHR)
    (hsub : env.submit = VK_SUCCESS) (hp : presentStale s env = true) :
    DrawFrame s env =
      match rebuildSwapchain s.window with
      | none =>
        { outcome := Outcome.blocked, state := { s with framebufferResized := false },
          trace := presentedOps s.currentFrame env.imageIndex }
      | some (w, ops) =>
        { outcome := Outcome.returned,
          state := advance { s with framebufferResized := false, window := w },
          trace := presentedOps s.currentFrame env.imageIndex ++ ops } := by
  simp [presentStale] at hp
  rcases hacq with h | h <;>
    simp [DrawFrame, h, hsub, hp, presentedOps, submittedOps]

theorem DrawFrame_present_fatal (s : State) (env : FrameEnv)
    (hacq : env.acquire = VK_SUCCESS ∨ env.acquire = VK_SUBOPTIMAL_KHR)
    (hsub : env.submit = VK_SUCCESS) (hp : presentStale s env = false)
    (hne : env.present ≠ VK_SUCCESS) :
    DrawFrame s env =
      RUNTIME_ERROR Fatal.present s (presentedOps s.currentFrame env.imageIndex) := by
  simp [presentStale] at hp
  rcases hacq with h | h <;>
    simp [DrawFrame, h, hsub, hp, hne, presentedOps, submittedOps]

theorem DrawFrame_ok (s : State) (env : FrameEnv)
    (hacq : env.acquire = VK_SUCCESS ∨ env.acquire = VK_SUBOPTIMAL_KHR)
    (hsub : env.submit = VK_SUCCESS) (hp : presentStale s env = false)
    (hpres : env.present = VK_SUCCESS) :
    DrawFrame s env =
      { outcome := Outcome.returned, state := advance s,
        trace := presentedOps s.currentFrame env.imageIndex } := by
  simp [presentStale] at hp
  rcases hacq with h | h <;>
    simp [DrawFrame, h, hsub, hp, hpres, presentedOps, submittedOps]

/-- No call of `WaitWhileMinimized` is one of the frame's own calls. -/
theorem isWaiting_not_frame (op : Op) (h : op.isWaiting = true) :
    op.isFenceReset = false ∧ op.isBufferReset = false ∧ op.isRender = false ∧
      op.isSubmit = false ∧ op.isPresent = false ∧ op.isRecreate = false ∧
      op.isResize = false := by
  cases op <;> simp_all [Op.isWaiting, Op.isFenceReset, Op.isBufferReset, Op.isRender,
    Op.isSubmit, Op.isPresent, Op.isRecreate, Op.isResize]

/-! ## C1: a stale acquire -/

/-- C1: in a tick whose acquire reports out-of-date, no call of the tick is a
fence reset, a command-buffer reset, a render callback, a queue submit or a
present.  When the window script has a size with no zero dimension the tick
returns, and its calls are exactly: the fence wait and the acquire, the polls
and event waits of `WaitWhileMinimized`, one more poll of the size, `Recreate`
and the resize callback with that size.  When every size of the script has a
zero dimension the tick stays in `WaitWhileMinimized`. -/
theorem acquire_stale_tick (s : State) (env : FrameEnv)
    (hstale : env.acquire = VK_ERROR_OUT_OF_DATE_KHR) :
    (∀ op ∈ (DrawFrame s env).trace,
      op.isFenceReset = false ∧ op.isBufferReset = false ∧ op.isRender = false ∧
        op.isSubmit = false ∧ op.isPresent = false) ∧
    ((∃ x ∈ s.window.script, x.width ≠ 0 ∧ x.height ≠ 0) →
      ∃ w waited, WaitWhileMinimized s.window = some (w, waited) ∧
        (∀ op ∈ waited, op.isWaiting = true) ∧
        DrawFrame s env =
          { outcome := Outcome.returned,
            state := { s with window := w.poll.2 },
            trace := acquiredOps s.currentFrame ++ waited ++
              [Op.getDrawableSize w.size, Op.recreate w.size.width w.size.height,
               Op.resizeCallback w.size.width w.size.height] }) ∧
    ((∀ x ∈ s.window.script, x.width = 0 ∨ x.height = 0) →
      (DrawFrame s env).outcome = Outcome.blocked) := by
  rw [DrawFrame_stale s env hstale]
  refine ⟨?_, ?_, ?_⟩
  · cases hr : rebuildSwapchain s.window with
    | none =>
      intro op hop
      simp only [acquiredOps, List.mem_cons, List.mem_singleton, List.not_mem_nil,
        or_false] at hop
      rcases hop with rfl | rfl <;> simp [Op.isFenceReset, Op.isBufferReset, Op.isRender,
        Op.isSubmit, Op.isPresent]
    | some r =>
      obtain ⟨w, ops⟩ := r
      obtain ⟨p1, waited, hw, -, rfl⟩ := rebuildSwapchain_some _ _ _ hr
      intro op hop
      simp only [acquiredOps, List.mem_append, List.mem_cons, List.mem_singleton,
        List.not_mem_nil, or_false] at hop
      rcases hop with (rfl | rfl) | hop | rfl | rfl | rfl
      · simp [Op.isFenceReset, Op.isBufferReset, Op.isRender, Op.isSubmit, Op.isPresent]
      · simp [Op.isFenceReset, Op.isBufferReset, Op.isRender, Op.isSubmit, Op.isPresent]
      · have := isWaiting_not_frame op (WaitWhileMinimized_isWaiting _ _ _ hw op hop)
        tauto
      · simp [Op.isFenceReset, Op.isBufferReset, Op.isRender, Op.isSubmit, Op.isPresent]
      · simp [Op.isFenceReset, Op.isBufferReset, Op.isRender, Op.isSubmit, Op.isPresent]
      · simp [Op.isFenceReset, Op.isBufferReset, Op.isRender, Op.isSubmit, Op.isPresent]
  · rintro ⟨x, hx, hxw, hxh⟩
    obtain ⟨w, ops, hr⟩ := rebuildSwapchain_returns s.window
      ⟨x, hx, (not_minimized_iff x).2 ⟨hxw, hxh⟩⟩
    obtain ⟨p1, waited, hw, rfl, rfl⟩ := rebuildSwapchain_some _ _ _ hr
    refine ⟨p1, waited, hw, WaitWhileMinimized_isWaiting _ _ _ hw, ?_⟩
    rw [hr]
    simp
  · intro hall
    have hn : rebuildSwapchain s.window = none :=
      (rebuildSwapchain_none_iff _).2 (fun x hx => (minimized_iff x).2 (hall x hx))
    rw [hn]

/-- C1 at a window that is minimized for two polls: the stale tick on slot 1
returns after the wait, the rebuild at 100 x 100 and the resize callback, and
leaves the slot and the resize flag as they were. -/
theorem acquire_stale_tick_witness :
    ∃ w waited,
      WaitWhileMinimized { size := ⟨0, 0⟩, pending := [⟨0, 5⟩, ⟨100, 100⟩] } = some (w, waited) ∧
      (∀ op ∈ waited, op.isWaiting = true) ∧
      DrawFrame
        { currentFrame := 1, maxFramesInFlight := 2, framebufferResized := true,
          window := { size := ⟨0, 0⟩, pending := [⟨0, 5⟩, ⟨100, 100⟩] } }
        { acquire := VK_ERROR_OUT_OF_DATE_KHR, imageIndex := 0, submit := VK_SUCCESS,
          present := VK_SUCCESS } =
        { outcome := Outcome.returned,
          state := { currentFrame := 1, maxFramesInFlight := 2, framebufferResized := true,
                     window := w.poll.2 },
          trace := acquiredOps 1 ++ waited ++
            [Op.getDrawableSize w.size, Op.recreate w.size.width w.size.height,
             Op.resizeCallback w.size.width w.size.height] } :=
  (acquire_stale_tick
    { currentFrame := 1, maxFramesInFlight := 2, framebufferResized := true,
      window := { size := ⟨0, 0⟩, pending := [⟨0, 5⟩, ⟨100, 100⟩] } }
    { acquire := VK_ERROR_OUT_OF_DATE_KHR, imageIndex := 0, submit := VK_SUCCESS,
      present := VK_SUCCESS } rfl).2.1
    ⟨⟨100, 100⟩, by simp [Platform.script], by decide, by decide⟩

/-! ## The six ways through `DrawFrame` -/

/-- Every tick takes one of the six paths of `DrawFrame`. -/
theorem DrawFrame_cases (s : State) (env : FrameEnv) :
    (env.acquire = VK_ERROR_OUT_OF_DATE_KHR) ∨
    (env.acquire ≠ VK_ERROR_OUT_OF_DATE_KHR ∧ env.acquire ≠ VK_SUCCESS ∧
      env.acquire ≠ VK_SUBOPTIMAL_KHR) ∨
    ((env.acquire = VK_SUCCESS ∨ env.acquire = VK_SUBOPTIMAL_KHR) ∧
      env.submit ≠ VK_SUCCESS) ∨
    ((env.acquire = VK_SUCCESS ∨ env.acquire = VK_SUBOPTIMAL_KHR) ∧
      env.submit = VK_SUCCESS ∧ presentStale s env = true) ∨
    ((env.acquire = VK_SUCCESS ∨ env.acquire = VK_SUBOPTIMAL_KHR) ∧
      env.submit = VK_SUCCESS ∧ presentStale s env = false ∧ env.present ≠ VK_SUCCESS) ∨
    ((env.acquire = VK_SUCCESS ∨ env.acquire = VK_SUBOPTIMAL_KHR) ∧
      env.submit = VK_SUCCESS ∧ presentStale s env = false ∧ env.present = VK_SUCCESS) := by
  by_cases h1 : env.acquire = VK_ERROR_OUT_OF_DATE_KHR
  · exact Or.inl h1
  by_cases h2 : env.acquire = VK_SUCCESS ∨ env.acquire = VK_SUBOPTIMAL_KHR
  · by_cases h3 : env.submit = VK_SUCCESS
    · cases h4 : presentStale s env
      · by_cases h5 : env.present = VK_SUCCESS <;> simp [h2, h3, h5]
      · simp [h2, h3]
    · simp [h2, h3]
  · simp only [not_or] at h2
    exact Or.inr (Or.inl ⟨h1, h2.1, h2.2⟩)

theorem advance_currentFrame (s : State) (hwf : s.WellFormed) :
    (advance s).currentFrame = (s.currentFrame + 1) % s.maxFramesInFlight := by
  obtain ⟨h1, h2⟩ := hwf
  simp only [advance]
  rw [Nat.mod_eq_of_lt (by omega : s.currentFrame + 1 < 4294967296)]

theorem advance_wellFormed (s : State) (hwf : s.WellFormed) : (advance s).WellFormed := by
  obtain ⟨h1, h2⟩ := hwf
  refine ⟨?_, h2⟩
  simp only [advance]
  exact Nat.mod_lt _ (by omega)

/-- The calls of a rebuild: one `Recreate`, one resize callback, none of the frame's calls. -/
theorem rebuildSwapchain_counts (p w : Platform) (ops : List Op)
    (h : rebuildSwapchain p = some (w, ops)) :
    ops.countP Op.isRecreate = 1 ∧ ops.countP Op.isResize = 1 ∧
      ops.countP Op.isSubmit = 0 ∧ ops.countP Op.isPresent = 0 := by
  obtain ⟨p1, waited, hw, -, rfl⟩ := rebuildSwapchain_some _ _ _ h
  have hz : ∀ q : Op → Bool, (∀ op, op.isWaiting = true → q op = false) →
      waited.countP q = 0 := by
    intro q hq
    rw [List.countP_eq_zero]
    intro op hop
    simp [hq op (WaitWhileMinimized_isWaiting _ _ _ hw op hop)]
  simp only [List.countP_append]
  rw [hz _ (fun op h => (isWaiting_not_frame op h).2.2.2.2.2.1),
    hz _ (fun op h => (isWaiting_not_frame op h).2.2.2.2.2.2),
    hz _ (fun op h => (isWaiting_not_frame op h).2.2.2.1),
    hz _ (fun op h => (isWaiting_not_frame op h).2.2.2.2.1)]
  simp [List.countP_cons, Op.isRecreate, Op.isResize, Op.isSubmit, Op.isPresent]

theorem presentedOps_counts (slot k : Nat) :
    (presentedOps slot k).countP Op.isRecreate = 0 ∧
      (presentedOps slot k).countP Op.isResize = 0 ∧
      (presentedOps slot k).countP Op.isSubmit = 1 ∧
      (presentedOps slot k).countP Op.isPresent = 1 := by
  simp [presentedOps, submittedOps, List.countP_cons, Op.isRecreate, Op.isResize, Op.isSubmit,
    Op.isPresent]

/-! ## C2: results that are neither success, suboptimal nor out-of-date -/

/-- C2, at the input where the code departs from it: `vkQueuePresentKHR`
returns `VK_ERROR_DEVICE_LOST` while `framebufferResized` is set.  The tick
does not end in `RUNTIME_ERROR`: it clears the flag, rebuilds the swapchain,
calls the resize callback, advances the slot and returns. -/
theorem present_error_masked_by_resize_flag :
    DrawFrame
      { currentFrame := 0, maxFramesInFlight := 2, framebufferResized := true,
        window := { size := ⟨640, 480⟩, pending := [] } }
      { acquire := VK_SUCCESS, imageIndex := 3, submit := VK_SUCCESS,
        present := VK_ERROR_DEVICE_LOST } =
      { outcome := Outcome.returned,
        state := { currentFrame := 1, maxFramesInFlight := 2, framebufferResized := false,
                   window := { size := ⟨640, 480⟩, pending := [] } },
        trace := presentedOps 0 3 ++
          [Op.getDrawableSize ⟨640, 480⟩, Op.getDrawableSize ⟨640, 480⟩,
           Op.recreate 640 480, Op.resizeCallback 640 480] } := by
  decide

/-- The part of C2 the code keeps: a result of acquire other than success,
suboptimal and out-of-date, any result of submit other than success, and, when
`framebufferResized` is not set, a result of present other than success,
suboptimal and out-of-date, each end the tick in `RUNTIME_ERROR` with no
`Recreate`, no resize callback and the state untouched.  With the flag set no
result of present does. -/
theorem fatal_results (s : State) (env : FrameEnv) :
    (env.acquire ≠ VK_SUCCESS → env.acquire ≠ VK_SUBOPTIMAL_KHR →
      env.acquire ≠ VK_ERROR_OUT_OF_DATE_KHR →
      DrawFrame s env = RUNTIME_ERROR Fatal.acquire s (acquiredOps s.currentFrame)) ∧
    ((env.acquire = VK_SUCCESS ∨ env.acquire = VK_SUBOPTIMAL_KHR) → env.submit ≠ VK_SUCCESS →
      DrawFrame s env =
        RUNTIME_ERROR Fatal.submit s (submittedOps s.currentFrame env.imageIndex)) ∧
    ((env.acquire = VK_SUCCESS ∨ env.acquire = VK_SUBOPTIMAL_KHR) → env.submit = VK_SUCCESS →
      env.present ≠ VK_SUCCESS → env.present ≠ VK_SUBOPTIMAL_KHR →
      env.present ≠ VK_ERROR_OUT_OF_DATE_KHR → s.framebufferResized = false →
      DrawFrame s env =
        RUNTIME_ERROR Fatal.present s (presentedOps s.currentFrame env.imageIndex)) ∧
    ((env.acquire = VK_SUCCESS ∨ env.acquire = VK_SUBOPTIMAL_KHR) → env.submit = VK_SUCCESS →
      s.framebufferResized = true →
      ∀ site, (DrawFrame s env).outcome ≠ Outcome.fatal site) := by
  refine ⟨?_, ?_, ?_, ?_⟩
  · intro h1 h2 h3
    exact DrawFrame_acquire_fatal s env h3 h1 h2
  · intro h1 h2
    exact DrawFrame_submit_fatal s env h1 h2
  · intro h1 h2 h3 h4 h5 h6
    exact DrawFrame_present_fatal s env h1 h2 (by simp [presentStale, h4, h5, h6]) h3
  · intro h1 h2 h3 site
    rw [DrawFrame_present_stale s env h1 h2 (by simp [presentStale, h3])]
    split <;> simp

/-- The slot a tick works on is `currentFrame` as the tick found it. -/
theorem DrawFrame_slot (s : State) (env : FrameEnv) :
    (DrawFrame s env).slot = some s.currentFrame := by
  rcases DrawFrame_cases s env with h | ⟨h1, h2, h3⟩ | ⟨h1, h2⟩ | ⟨h1, h2, h3⟩ |
    ⟨h1, h2, h3, h4⟩ | ⟨h1, h2, h3, h4⟩
  · rw [DrawFrame_stale s env h]; split <;> rfl
  · rw [DrawFrame_acquire_fatal s env h1 h2 h3]; rfl
  · rw [DrawFrame_submit_fatal s env h1 h2]; rfl
  · rw [DrawFrame_present_stale s env h1 h2 h3]; split <;> rfl
  · rw [DrawFrame_present_fatal s env h1 h2 h3 h4]; rfl
  · rw [DrawFrame_ok s env h1 h2 h3 h4]; rfl

/-! ## C3: five ticks with a stale acquire at tick 2 -/

/-- C3 as stated fails: with two slots, `currentFrame` 0 and no resize flag,
five ticks of which only tick 2 has a stale acquire work on the slots
0, 1, 0, 0, 1 and not on 0, 1, 0, 1, 0. -/
theorem stale_at_tick_two_counterexample :
    (DrawFrames
        { currentFrame := 0, maxFramesInFlight := 2, framebufferResized := false,
          window := { size := ⟨640, 480⟩, pending := [] } }
        [FrameEnv.ok 0, FrameEnv.ok 1, FrameEnv.stale, FrameEnv.ok 0, FrameEnv.ok 1]).map
        Tick.slot = [some 0, some 1, some 0, some 0, some 1] ∧
    (DrawFrames
        { currentFrame := 0, maxFramesInFlight := 2, framebufferResized := false,
          window := { size := ⟨640, 480⟩, pending := [] } }
        [FrameEnv.ok 0, FrameEnv.ok 1, FrameEnv.stale, FrameEnv.ok 0, FrameEnv.ok 1]).map
        Tick.slot ≠ [some 0, some 1, some 0, some 1, some 0] := by
  decide

/-- C3 as amended: with two slots, `currentFrame` 0 and no resize flag, for
every window that has a size with no zero dimension in its script and all image
indices, five ticks of which only tick 2 has a stale acquire all return; tick 2
rebuilds the swapchain once and submits nothing, the other ticks submit once
and rebuild nothing; the ticks work on the slots 0, 1, 0, 0, 1. -/
theorem stale_at_tick_two (w : Platform) (k0 k1 k3 k4 : Nat)
    (hw : ∃ x ∈ w.script, x.width ≠ 0 ∧ x.height ≠ 0) :
    (DrawFrames
        { currentFrame := 0, maxFramesInFlight := 2, framebufferResized := false, window := w }
        [FrameEnv.ok k0, FrameEnv.ok k1, FrameEnv.stale, FrameEnv.ok k3, FrameEnv.ok k4]).map
        Tick.slot = [some 0, some 1, some 0, some 0, some 1] ∧
    (DrawFrames
        { currentFrame := 0, maxFramesInFlight := 2, framebufferResized := false, window := w }
        [FrameEnv.ok k0, FrameEnv.ok k1, FrameEnv.stale, FrameEnv.ok k3, FrameEnv.ok k4]).map
        Tick.outcome = [Outcome.returned, Outcome.returned, Outcome.returned, Outcome.returned,
          Outcome.returned] ∧
    (DrawFrames
        { currentFrame := 0, maxFramesInFlight := 2, framebufferResized := false, window := w }
        [FrameEnv.ok k0, FrameEnv.ok k1, FrameEnv.stale, FrameEnv.ok k3, FrameEnv.ok k4]).map
        (fun t => t.trace.countP Op.isSubmit) = [1, 1, 0, 1, 1] ∧
    (DrawFrames
        { currentFrame := 0, maxFramesInFlight := 2, framebufferResized := false, window := w }
        [FrameEnv.ok k0, FrameEnv.ok k1, FrameEnv.stale, FrameEnv.ok k3, FrameEnv.ok k4]).map
        (fun t => t.trace.countP Op.isRecreate) = [0, 0, 1, 0, 0] := by
  obtain ⟨x, hx, hxw, hxh⟩ := hw
  obtain ⟨w1, ops, hr⟩ := rebuildSwapchain_returns w ⟨x, hx, (not_minimized_iff x).2 ⟨hxw, hxh⟩⟩
  obtain ⟨h1, -, h3, -⟩ := rebuildSwapchain_counts _ _ _ hr
  have hok : ∀ (s : State) (k : Nat), s.framebufferResized = false →
      DrawFrame s (FrameEnv.ok k) =
        { outcome := Outcome.returned, state := advance s,
          trace := presentedOps s.currentFrame k } := by
    intro s k hs
    exact DrawFrame_ok s (FrameEnv.ok k) (Or.inl rfl) rfl
      (by simp [presentStale, FrameEnv.ok, hs]) rfl
  have hst : ∀ (c n : Nat),
      DrawFrame { currentFrame := c, maxFramesInFlight := n, framebufferResized := false,
                  window := w } FrameEnv.stale =
        { outcome := Outcome.returned,
          state := { currentFrame := c, maxFramesInFlight := n, framebufferResized := false,
                     window := w1 },
          trace := acquiredOps c ++ ops } := by
    intro c n
    rw [DrawFrame_stale _ _ rfl]
    simp only [hr]
  simp only [DrawFrames, hok, hst, advance, List.map_cons, List.map_nil, Tick.slot,
    presentedOps, submittedOps, acquiredOps, List.cons_append, List.nil_append,
    List.countP_cons, List.countP_nil, h1, h3, Op.isSubmit, Op.isRecreate]
  simp

/-- C3 (amended) at a window of 640 x 480 and image indices 0, 1, 0, 1. -/
theorem stale_at_tick_two_witness :
    (DrawFrames
        { currentFrame := 0, maxFramesInFlight := 2, framebufferResized := false,
          window := { size := ⟨640, 480⟩, pending := [] } }
        [FrameEnv.ok 0, FrameEnv.ok 1, FrameEnv.stale, FrameEnv.ok 0, FrameEnv.ok 1]).map
        (fun t => t.trace.countP Op.isSubmit) = [1, 1, 0, 1, 1] :=
  (stale_at_tick_two { size := ⟨640, 480⟩, pending := [] } 0 1 0 1
    ⟨⟨640, 480⟩, by simp [Platform.script], by decide, by decide⟩).2.2.1

/-! ## C4 and C5: when the slot advances -/

theorem DrawFrame_maxFramesInFlight (s : State) (env : FrameEnv) :
    (DrawFrame s env).state.maxFramesInFlight = s.maxFramesInFlight := by
  rcases DrawFrame_cases s env with h | ⟨h1, h2, h3⟩ | ⟨h1, h2⟩ | ⟨h1, h2, h3⟩ |
    ⟨h1, h2, h3, h4⟩ | ⟨h1, h2, h3, h4⟩
  · rw [DrawFrame_stale s env h]; split <;> rfl
  · rw [DrawFrame_acquire_fatal s env h1 h2 h3]; rfl
  · rw [DrawFrame_submit_fatal s env h1 h2]; rfl
  · rw [DrawFrame_present_stale s env h1 h2 h3]; split <;> rfl
  · rw [DrawFrame_present_fatal s env h1 h2 h3 h4]; rfl
  · rw [DrawFrame_ok s env h1 h2 h3 h4]; rfl

/-- A tick that returns and whose acquire was not stale advanced the slot. -/
theorem DrawFrame_advances (s : State) (env : FrameEnv) (hwf : s.WellFormed)
    (hacq : env.acquire ≠ VK_ERROR_OUT_OF_DATE_KHR)
    (hret : (DrawFrame s env).outcome = Outcome.returned) :
    (DrawFrame s env).state.currentFrame = (s.currentFrame + 1) % s.maxFramesInFlight := by
  rcases DrawFrame_cases s env with h | ⟨h1, h2, h3⟩ | ⟨h1, h2⟩ | ⟨h1, h2, h3⟩ |
    ⟨h1, h2, h3, h4⟩ | ⟨h1, h2, h3, h4⟩
  · exact absurd h hacq
  · rw [DrawFrame_acquire_fatal s env h1 h2 h3] at hret; cases hret
  · rw [DrawFrame_submit_fatal s env h1 h2] at hret; cases hret
  · rw [DrawFrame_present_stale s env h1 h2 h3] at hret ⊢
    split at hret
    · cases hret
    · rename_i w ops hr
      simp only [hr]
      exact advance_currentFrame { s with framebufferResized := false, window := w } hwf
  · rw [DrawFrame_present_fatal s env h1 h2 h3 h4] at hret; cases hret
  · rw [DrawFrame_ok s env h1 h2 h3 h4]
    exact advance_currentFrame s hwf

/-- C4: in a state whose `currentFrame` is a slot index (so N >= 1), a tick whose
acquire reports out-of-date leaves `currentFrame` as it was, however the tick
ends.  A tick whose acquire was not out-of-date and that calls `Recreate` did so
after presenting, because present returned out-of-date or suboptimal or the
resize flag was set, and it returns with `currentFrame` set to
`(currentFrame + 1) mod N`.  Every tick that presents with that condition true,
in a window whose script has a size with no zero dimension, is such a tick. -/
theorem slot_advance_asymmetry (s : State) (env : FrameEnv) (hwf : s.WellFormed) :
    (env.acquire = VK_ERROR_OUT_OF_DATE_KHR →
      (DrawFrame s env).state.currentFrame = s.currentFrame) ∧
    (env.acquire ≠ VK_ERROR_OUT_OF_DATE_KHR →
      (∃ op ∈ (DrawFrame s env).trace, op.isRecreate = true) →
      presentStale s env = true ∧
      (∃ pre post, (DrawFrame s env).trace = pre ++ post ∧
        pre.countP Op.isPresent = 1 ∧ pre.countP Op.isRecreate = 0 ∧
        post.countP Op.isRecreate = 1) ∧
      (DrawFrame s env).outcome = Outcome.returned ∧
      (DrawFrame s env).state.currentFrame =
        (s.currentFrame + 1) % s.maxFramesInFlight) ∧
    ((env.acquire = VK_SUCCESS ∨ env.acquire = VK_SUBOPTIMAL_KHR) →
      env.submit = VK_SUCCESS → presentStale s env = true →
      (∃ x ∈ s.window.script, x.width ≠ 0 ∧ x.height ≠ 0) →
      (∃ op ∈ (DrawFrame s env).trace, op.isRecreate = true) ∧
      (DrawFrame s env).outcome = Outcome.returned ∧
      (DrawFrame s env).state.currentFrame =
        (s.currentFrame + 1) % s.maxFramesInFlight) := by
  refine ⟨?_, ?_, ?_⟩
  · intro h
    rw [DrawFrame_stale s env h]
    split <;> rfl
  · intro hacq hrec
    rcases DrawFrame_cases s env with h | ⟨h1, h2, h3⟩ | ⟨h1, h2⟩ | ⟨h1, h2, h3⟩ |
      ⟨h1, h2, h3, h4⟩ | ⟨h1, h2, h3, h4⟩
    · exact absurd h hacq
    · rw [DrawFrame_acquire_fatal s env h1 h2 h3] at hrec
      simp [RUNTIME_ERROR, acquiredOps, Op.isRecreate] at hrec
    · rw [DrawFrame_submit_fatal s env h1 h2] at hrec
      simp [RUNTIME_ERROR, submittedOps, Op.isRecreate] at hrec
    · refine ⟨h3, ?_⟩
      rw [DrawFrame_present_stale s env h1 h2 h3] at hrec ⊢
      cases hr : rebuildSwapchain s.window with
      | none =>
        rw [hr] at hrec
        simp [presentedOps, submittedOps, Op.isRecreate] at hrec
      | some r =>
        obtain ⟨w, ops⟩ := r
        obtain ⟨c1, -, -, -⟩ := rebuildSwapchain_counts _ _ _ hr
        obtain ⟨d1, -, -, d4⟩ := presentedOps_counts s.currentFrame env.imageIndex
        exact ⟨⟨_, _, rfl, d4, d1, c1⟩, rfl,
          advance_currentFrame { s with framebufferResized := false, window := w } hwf⟩
    · rw [DrawFrame_present_fatal s env h1 h2 h3 h4] at hrec
      simp [RUNTIME_ERROR, presentedOps, submittedOps, Op.isRecreate] at hrec
    · rw [DrawFrame_ok s env h1 h2 h3 h4] at hrec
      simp [presentedOps, submittedOps, Op.isRecreate] at hrec
  · rintro h1 h2 h3 ⟨x, hx, hxw, hxh⟩
    obtain ⟨w, ops, hr⟩ := rebuildSwapchain_returns s.window
      ⟨x, hx, (not_minimized_iff x).2 ⟨hxw, hxh⟩⟩
    obtain ⟨p1, waited, -, -, rfl⟩ := rebuildSwapchain_some _ _ _ hr
    rw [DrawFrame_present_stale s env h1 h2 h3, hr]
    refine ⟨⟨Op.recreate p1.size.width p1.size.height, by simp, rfl⟩, rfl, ?_⟩
    exact advance_currentFrame { s with framebufferResized := false, window := w } hwf

/-- C4 at slot 1 of 2 with the resize flag set: the tick presents, rebuilds and
moves `currentFrame` to `(1 + 1) mod 2`. -/
theorem slot_advance_asymmetry_witness :
    (∃ op ∈ (DrawFrame
        { currentFrame := 1, maxFramesInFlight := 2, framebufferResized := true,
          window := { size := ⟨0, 0⟩, pending := [⟨800, 600⟩] } } (FrameEnv.ok 4)).trace,
      op.isRecreate = true) ∧
    (DrawFrame
        { currentFrame := 1, maxFramesInFlight := 2, framebufferResized := true,
          window := { size := ⟨0, 0⟩, pending := [⟨800, 600⟩] } } (FrameEnv.ok 4)).outcome =
      Outcome.returned ∧
    (DrawFrame
        { currentFrame := 1, maxFramesInFlight := 2, framebufferResized := true,
          window := { size := ⟨0, 0⟩, pending := [⟨800, 600⟩] } }
        (FrameEnv.ok 4)).state.currentFrame = (1 + 1) % 2 :=
  (slot_advance_asymmetry
    { currentFrame := 1, maxFramesInFlight := 2, framebufferResized := true,
      window := { size := ⟨0, 0⟩, pending := [⟨800, 600⟩] } } (FrameEnv.ok 4)
    (by decide)).2.2 (Or.inl rfl) rfl (by decide)
    ⟨⟨800, 600⟩, by simp [Platform.script], by decide, by decide⟩

/-- After `k` ticks that all return and none of which had a stale acquire, the
slot has moved on by `k`, modulo the number of slots. -/
theorem DrawFrames_advances (envs : List FrameEnv) (s : State) (hwf : s.WellFormed)
    (hacq : ∀ e ∈ envs, e.acquire ≠ VK_ERROR_OUT_OF_DATE_KHR)
    (hret : ∀ t ∈ DrawFrames s envs, t.outcome = Outcome.returned) :
    (DrawFrames s envs).length = envs.length ∧
    (stateAfter s (DrawFrames s envs)).currentFrame =
      (s.currentFrame + envs.length) % s.maxFramesInFlight := by
  induction envs generalizing s with
  | nil =>
    simp only [DrawFrames, stateAfter, List.length_nil, Nat.add_zero, true_and]
    exact (Nat.mod_eq_of_lt hwf.1).symm
  | cons e rest ih =>
    have h1 : (DrawFrame s e).outcome = Outcome.returned := by
      apply hret
      cases h : (DrawFrame s e).outcome <;> simp [DrawFrames, h]
    have hstep : DrawFrames s (e :: rest) =
        DrawFrame s e :: DrawFrames (DrawFrame s e).state rest := by
      simp [DrawFrames, h1]
    have hcf := DrawFrame_advances s e hwf (hacq e (by simp)) h1
    have hn := DrawFrame_maxFramesInFlight s e
    have hwf1 : (DrawFrame s e).state.WellFormed := by
      refine ⟨?_, ?_⟩
      · rw [hcf, hn]; exact Nat.mod_lt _ (by have := hwf.1; omega)
      · rw [hn]; exact hwf.2
    obtain ⟨i1, i2⟩ := ih (DrawFrame s e).state hwf1
      (fun e1 he1 => hacq e1 (List.mem_cons_of_mem _ he1))
      (fun t ht => hret t (by rw [hstep]; exact List.mem_cons_of_mem _ ht))
    rw [hstep]
    refine ⟨by simp [i1], ?_⟩
    simp only [stateAfter, i2, hcf, hn, List.length_cons]
    rw [Nat.mod_add_mod]
    congr 1
    omega

/-- C5: from a state whose `currentFrame` is a slot index (so N >= 1), N
consecutive ticks that all return (no fatal error, no endless minimized wait)
and none of which has a stale acquire are all carried out and leave
`currentFrame` at its starting value; each tick that returns and whose acquire
was not stale maps `currentFrame` to `(currentFrame + 1) mod N`. -/
theorem slot_cycle (s : State) (envs : List FrameEnv) (hwf : s.WellFormed)
    (hlen : envs.length = s.maxFramesInFlight)
    (hacq : ∀ e ∈ envs, e.acquire ≠ VK_ERROR_OUT_OF_DATE_KHR)
    (hret : ∀ t ∈ DrawFrames s envs, t.outcome = Outcome.returned) :
    (DrawFrames s envs).length = s.maxFramesInFlight ∧
    (stateAfter s (DrawFrames s envs)).currentFrame = s.currentFrame ∧
    (∀ (s1 : State) (e : FrameEnv), s1.WellFormed →
      e.acquire ≠ VK_ERROR_OUT_OF_DATE_KHR →
      (DrawFrame s1 e).outcome = Outcome.returned →
      (DrawFrame s1 e).state.currentFrame =
        (s1.currentFrame + 1) % s1.maxFramesInFlight) := by
  obtain ⟨h1, h2⟩ := DrawFrames_advances envs s hwf hacq hret
  refine ⟨by rw [h1, hlen], ?_, fun s1 e => DrawFrame_advances s1 e⟩
  rw [h2, hlen, Nat.add_mod_right]
  exact Nat.mod_eq_of_lt hwf.1

/-- C5 at three slots, starting at slot 2, with a suboptimal acquire and a
rebuild after present among the three ticks. -/
theorem slot_cycle_witness :
    (stateAfter
      { currentFrame := 2, maxFramesInFlight := 3, framebufferResized := false,
        window := { size := ⟨640, 480⟩, pending := [] } }
      (DrawFrames
        { currentFrame := 2, maxFramesInFlight := 3, framebufferResized := false,
          window := { size := ⟨640, 480⟩, pending := [] } }
        [FrameEnv.ok 0,
         { acquire := VK_SUBOPTIMAL_KHR, imageIndex := 1, submit := VK_SUCCESS,
           present := VK_SUCCESS },
         { acquire := VK_SUCCESS, imageIndex := 2, submit := VK_SUCCESS,
           present := VK_ERROR_OUT_OF_DATE_KHR }])).currentFrame = 2 :=
  (slot_cycle
    { currentFrame := 2, maxFramesInFlight := 3, framebufferResized := false,
      window := { size := ⟨640, 480⟩, pending := [] } }
    [FrameEnv.ok 0,
     { acquire := VK_SUBOPTIMAL_KHR, imageIndex := 1, submit := VK_SUCCESS,
       present := VK_SUCCESS },
     { acquire := VK_SUCCESS, imageIndex := 2, submit := VK_SUCCESS,
       present := VK_ERROR_OUT_OF_DATE_KHR }]
    (by decide) rfl (by decide) (by decide)).2.1

/-! ## C6: what the resize callback is told -/

/-- C6, at inputs where the code departs from it.  The window is minimized,
restored to 800 x 600 and minimized again while `WaitWhileMinimized` sits in
`SDL_WaitEvent`.  The loop leaves on the 800 x 600 it polled before the wait;
`DrawFrame` then polls afresh, gets 0 x 0, and passes 0 x 0 to `Recreate` and to
the resize callback: on the acquire path (first equation) and on the present
path (second equation) alike. -/
theorem resize_callback_with_zero_size :
    DrawFrame
      { currentFrame := 0, maxFramesInFlight := 2, framebufferResized := false,
        window := { size := ⟨0, 0⟩, pending := [⟨800, 600⟩, ⟨0, 0⟩] } }
      FrameEnv.stale =
      { outcome := Outcome.returned,
        state := { currentFrame := 0, maxFramesInFlight := 2, framebufferResized := false,
                   window := { size := ⟨0, 0⟩, pending := [] } },
        trace := acquiredOps 0 ++
          [Op.getDrawableSize ⟨0, 0⟩, Op.getDrawableSize ⟨800, 600⟩, Op.waitEvent,
           Op.getDrawableSize ⟨0, 0⟩, Op.recreate 0 0, Op.resizeCallback 0 0] } ∧
    DrawFrame
      { currentFrame := 0, maxFramesInFlight := 2, framebufferResized := false,
        window := { size := ⟨0, 0⟩, pending := [⟨800, 600⟩, ⟨0, 0⟩] } }
      { acquire := VK_SUCCESS, imageIndex := 1, submit := VK_SUCCESS,
        present := VK_ERROR_OUT_OF_DATE_KHR } =
      { outcome := Outcome.returned,
        state := { currentFrame := 1, maxFramesInFlight := 2, framebufferResized := false,
                   window := { size := ⟨0, 0⟩, pending := [] } },
        trace := presentedOps 0 1 ++
          [Op.getDrawableSize ⟨0, 0⟩, Op.getDrawableSize ⟨800, 600⟩, Op.waitEvent,
           Op.getDrawableSize ⟨0, 0⟩, Op.recreate 0 0, Op.resizeCallback 0 0] } := by
  decide

/-- The part of C6 the code keeps, on both paths and for every window script: a
tick that calls `Recreate` ends with a poll of the drawable size, `Recreate`
with the polled width and height, and the resize callback with the same two
numbers; nothing before these three calls is a `Recreate` or a resize callback.
The size that made `WaitWhileMinimized` return had no zero dimension; the size
passed on is that of the poll after it. -/
theorem rebuild_notifies_once (s : State) (env : FrameEnv)
    (h : ∃ op ∈ (DrawFrame s env).trace, op.isRecreate = true) :
    ∃ pre sz, (DrawFrame s env).trace = pre ++
        [Op.getDrawableSize sz, Op.recreate sz.width sz.height,
         Op.resizeCallback sz.width sz.height] ∧
      pre.countP Op.isRecreate = 0 ∧ pre.countP Op.isResize = 0 ∧
      ∃ last rest, polledSizes pre = rest ++ [last] ∧ last.width ≠ 0 ∧ last.height ≠ 0 := by
  have key : ∀ (front : List Op) (w : Platform) (ops : List Op),
      front.countP Op.isRecreate = 0 → front.countP Op.isResize = 0 →
      rebuildSwapchain s.window = some (w, ops) →
      ∃ pre sz, front ++ ops = pre ++
          [Op.getDrawableSize sz, Op.recreate sz.width sz.height,
           Op.resizeCallback sz.width sz.height] ∧
        pre.countP Op.isRecreate = 0 ∧ pre.countP Op.isResize = 0 ∧
        ∃ last rest, polledSizes pre = rest ++ [last] ∧ last.width ≠ 0 ∧ last.height ≠ 0 := by
    intro front w ops f1 f2 hr
    obtain ⟨p1, waited, hw, -, rfl⟩ := rebuildSwapchain_some _ _ _ hr
    have hz : ∀ q : Op → Bool, (∀ op, op.isWaiting = true → q op = false) →
        waited.countP q = 0 := by
      intro q hq
      rw [List.countP_eq_zero]
      intro op hop
      simp [hq op (WaitWhileMinimized_isWaiting _ _ _ hw op hop)]
    obtain ⟨zs, rfl, -, -, hlast⟩ := WaitWhileMinimized_some _ _ _ hw
    refine ⟨front ++ (Op.getDrawableSize s.window.size :: iterations zs), p1.size,
      by simp, ?_, ?_, ?_⟩
    · rw [List.countP_append, f1, hz _ (fun op h => (isWaiting_not_frame op h).2.2.2.2.2.1)]
    · rw [List.countP_append, f2, hz _ (fun op h => (isWaiting_not_frame op h).2.2.2.2.2.2)]
    · refine ⟨(s.window.size :: zs).getLast (List.cons_ne_nil _ _),
        polledSizes front ++ (s.window.size :: zs).dropLast, ?_,
        ((not_minimized_iff _).1 hlast).1, ((not_minimized_iff _).1 hlast).2⟩
      rw [polledSizes_append, List.append_assoc, List.dropLast_append_getLast]
      simp [polledSizes, polledSizes_iterations]
  rcases DrawFrame_cases s env with h0 | ⟨h1, h2, h3⟩ | ⟨h1, h2⟩ | ⟨h1, h2, h3⟩ |
    ⟨h1, h2, h3, h4⟩ | ⟨h1, h2, h3, h4⟩
  · rw [DrawFrame_stale s env h0] at h ⊢
    cases hr : rebuildSwapchain s.window with
    | none =>
      rw [hr] at h
      simp [acquiredOps, Op.isRecreate] at h
    | some r =>
      exact key _ r.1 r.2 (by simp [acquiredOps, List.countP_cons, Op.isRecreate])
        (by simp [acquiredOps, List.countP_cons, Op.isResize]) hr
  · rw [DrawFrame_acquire_fatal s env h1 h2 h3] at h
    simp [RUNTIME_ERROR, acquiredOps, Op.isRecreate] at h
  · rw [DrawFrame_submit_fatal s env h1 h2] at h
    simp [RUNTIME_ERROR, submittedOps, Op.isRecreate] at h
  · rw [DrawFrame_present_stale s env h1 h2 h3] at h ⊢
    cases hr : rebuildSwapchain s.window with
    | none =>
      rw [hr] at h
      simp [presentedOps, submittedOps, Op.isRecreate] at h
    | some r =>
      exact key _ r.1 r.2 (presentedOps_counts _ _).1 (presentedOps_counts _ _).2.1 hr
  · rw [DrawFrame_present_fatal s env h1 h2 h3 h4] at h
    simp [RUNTIME_ERROR, presentedOps, submittedOps, Op.isRecreate] at h
  · rw [DrawFrame_ok s env h1 h2 h3 h4] at h
    simp [presentedOps, submittedOps, Op.isRecreate] at h

/-! ## C7: the minimized wait over a script -/

/-- C7: when `WaitWhileMinimized` returns, the sizes it polled are a beginning
of the window script, every polled size but the last has a zero width or a zero
height, and the last polled size has neither; it returns whenever the script
holds a size with no zero dimension, and with any larger bound on the loop the
result is the same; over a script in which every size has a zero dimension the
loop is never left, whatever the bound.  On the script (0,0), (0,5), (100,100)
it polls all three sizes and the rebuild that follows calls `Recreate` and the
resize callback with 100 x 100. -/
theorem minimized_wait :
    (∀ (p p1 : Platform) (tr : List Op), WaitWhileMinimized p = some (p1, tr) →
      ∃ pre last, polledSizes tr = pre ++ [last] ∧ (pre ++ [last]) <+: p.script ∧
        (∀ x ∈ pre, x.width = 0 ∨ x.height = 0) ∧ last.width ≠ 0 ∧ last.height ≠ 0) ∧
    (∀ p : Platform, (∃ x ∈ p.script, x.width ≠ 0 ∧ x.height ≠ 0) →
      ∃ r, WaitWhileMinimized p = some r ∧
        ∀ extra, minimizedLoop (p.pending.length + 1 + extra) p.poll.1 p.poll.2
          [Op.getDrawableSize p.poll.1] = some r) ∧
    (∀ p : Platform, (∀ x ∈ p.script, x.width = 0 ∨ x.height = 0) →
      WaitWhileMinimized p = none ∧
        ∀ fuel, minimizedLoop fuel p.poll.1 p.poll.2 [Op.getDrawableSize p.poll.1] = none) ∧
    WaitWhileMinimized { size := ⟨0, 0⟩, pending := [⟨0, 5⟩, ⟨100, 100⟩] } =
      some ({ size := ⟨100, 100⟩, pending := [] },
        [Op.getDrawableSize ⟨0, 0⟩, Op.getDrawableSize ⟨0, 5⟩, Op.waitEvent,
         Op.getDrawableSize ⟨100, 100⟩, Op.waitEvent]) ∧
    rebuildSwapchain { size := ⟨0, 0⟩, pending := [⟨0, 5⟩, ⟨100, 100⟩] } =
      some ({ size := ⟨100, 100⟩, pending := [] },
        [Op.getDrawableSize ⟨0, 0⟩, Op.getDrawableSize ⟨0, 5⟩, Op.waitEvent,
         Op.getDrawableSize ⟨100, 100⟩, Op.waitEvent,
         Op.getDrawableSize ⟨100, 100⟩, Op.recreate 100 100, Op.resizeCallback 100 100]) := by
  refine ⟨?_, ?_, ?_, by decide, by decide⟩
  · intro p p1 tr h
    obtain ⟨zs, rfl, hpre, hall, hlast⟩ := WaitWhileMinimized_some p p1 tr h
    refine ⟨(p.size :: zs).dropLast, (p.size :: zs).getLast (List.cons_ne_nil _ _), ?_, ?_,
      fun x hx => (minimized_iff x).1 (hall x hx),
      ((not_minimized_iff _).1 hlast).1, ((not_minimized_iff _).1 hlast).2⟩
    · rw [List.dropLast_append_getLast]
      simp [polledSizes, polledSizes_iterations]
    · rw [List.dropLast_append_getLast]
      exact hpre
  · rintro p ⟨x, hx, hxw, hxh⟩
    obtain ⟨r, hr⟩ := WaitWhileMinimized_returns p ⟨x, hx, (not_minimized_iff x).2 ⟨hxw, hxh⟩⟩
    exact ⟨r, hr, fun extra => minimizedLoop_mono _ extra _ _ _ r hr⟩
  · intro p hall
    have hm : ∀ x ∈ p.script, x.minimized = true := fun x hx => (minimized_iff x).2 (hall x hx)
    exact ⟨(WaitWhileMinimized_none_iff p).2 hm, WaitWhileMinimized_blocks p hm⟩

/-! ## C8: shutdown -/

/-- The loop of `Cleanup`, started at `i`, releases the slots `i`, ..., `N - 1` in order. -/
theorem destroySyncObjects_eq (N i : Nat) :
    destroySyncObjects N i = (List.range' i (N - i)).flatMap slotReleases := by
  generalize hk : N - i = k
  induction k generalizing i with
  | zero =>
    unfold destroySyncObjects
    rw [if_neg (by omega)]
    rfl
  | succ k ih =>
    unfold destroySyncObjects
    rw [if_pos (by omega), ih (i + 1) (by omega), List.range'_succ, List.flatMap_cons]
    rfl

theorem destroySyncObjects_zero (N : Nat) :
    destroySyncObjects N 0 = (List.range N).flatMap slotReleases := by
  rw [destroySyncObjects_eq, List.range_eq_range']
  rfl

theorem slotReleases_counts (N : Nat) :
    ((List.range N).flatMap slotReleases).countP Op.isSemaphoreDestroy = 2 * N ∧
    ((List.range N).flatMap slotReleases).countP Op.isFenceDestroy = N ∧
    ((List.range N).flatMap slotReleases).count Op.commandsDestroy = 0 ∧
    ((List.range N).flatMap slotReleases).count Op.destroyDebugMessenger = 0 := by
  induction N with
  | zero => simp
  | succ n ih =>
    obtain ⟨h1, h2, h3, h4⟩ := ih
    rw [List.range_succ, List.flatMap_append, List.flatMap_singleton]
    simp only [List.countP_append, List.count_append, h1, h2, h3, h4]
    refine ⟨?_, ?_, ?_, ?_⟩
    · simp [slotReleases, List.countP_cons, Op.isSemaphoreDestroy]; omega
    · simp [slotReleases, List.countP_cons, Op.isFenceDestroy]
    · simp [slotReleases, List.count_cons]
    · simp [slotReleases, List.count_cons]

theorem slotReleases_count_slot (N i : Nat) :
    ((List.range N).flatMap slotReleases).count (Op.destroySemaphore (Sem.renderFinished i)) =
      (if i < N then 1 else 0) ∧
    ((List.range N).flatMap slotReleases).count (Op.destroySemaphore (Sem.imageAvailable i)) =
      (if i < N then 1 else 0) ∧
    ((List.range N).flatMap slotReleases).count (Op.destroyFence i) =
      (if i < N then 1 else 0) := by
  induction N with
  | zero => simp
  | succ n ih =>
    obtain ⟨h1, h2, h3⟩ := ih
    rw [List.range_succ, List.flatMap_append, List.flatMap_singleton]
    simp only [List.count_append, h1, h2, h3]
    by_cases hlt : i < n
    · have hne : n ≠ i := by omega
      simp [slotReleases, List.count_cons, hlt, hne, Nat.lt_succ_of_lt hlt]
    · by_cases heq : i = n
      · subst heq
        simp [slotReleases, List.count_cons]
      · have hne : n ≠ i := fun h => heq h.symm
        have hnlt : ¬ i < n + 1 := by omega
        simp [slotReleases, List.count_cons, hlt, hne, hnlt]

/-- C8: for every N, the calls of `Cleanup` are, in this order: swapchain
cleanup, cleanup callback, allocator destroy; for each slot i = 0..N-1 the
renderFinished semaphore, the imageAvailable semaphore and the fence of slot i;
the command-pool destroy, the device, the debug messenger (when validation is
enabled and the destroy function is found, never when validation is disabled),
the surface, the instance, the window; then SDL unloads the Vulkan library and
quits.  Each semaphore and fence of a slot below N is released exactly once,
2 N semaphores and N fences in all, and the command pool exactly once. -/
theorem cleanup_order (N : Nat) (enableValidationLayers procFound : Bool) :
    Cleanup N enableValidationLayers procFound =
      [Op.swapchainCleanup, Op.cleanupCallback, Op.destroyAllocator]
        ++ (List.range N).flatMap (fun i =>
          [Op.destroySemaphore (Sem.renderFinished i),
           Op.destroySemaphore (Sem.imageAvailable i),
           Op.destroyFence i])
        ++ [Op.commandsDestroy, Op.destroyDevice]
        ++ (if enableValidationLayers && procFound then [Op.destroyDebugMessenger] else [])
        ++ [Op.destroySurface, Op.destroyInstance, Op.destroyWindow,
            Op.unloadLibrary, Op.sdlQuit] ∧
    (∀ i, i < N →
      (Cleanup N enableValidationLayers procFound).count
        (Op.destroySemaphore (Sem.renderFinished i)) = 1 ∧
      (Cleanup N enableValidationLayers procFound).count
        (Op.destroySemaphore (Sem.imageAvailable i)) = 1 ∧
      (Cleanup N enableValidationLayers procFound).count (Op.destroyFence i) = 1) ∧
    (Cleanup N enableValidationLayers procFound).countP Op.isSemaphoreDestroy = 2 * N ∧
    (Cleanup N enableValidationLayers procFound).countP Op.isFenceDestroy = N ∧
    (Cleanup N enableValidationLayers procFound).count Op.commandsDestroy = 1 ∧
    (Cleanup N false procFound).count Op.destroyDebugMessenger = 0 := by
  have hc : ∀ v f : Bool, Cleanup N v f =
      [Op.swapchainCleanup, Op.cleanupCallback, Op.destroyAllocator]
        ++ (List.range N).flatMap slotReleases
        ++ [Op.commandsDestroy, Op.destroyDevice]
        ++ (if v && f then [Op.destroyDebugMessenger] else [])
        ++ [Op.destroySurface, Op.destroyInstance, Op.destroyWindow,
            Op.unloadLibrary, Op.sdlQuit] := by
    intro v f
    unfold Cleanup
    rw [destroySyncObjects_zero]
    cases v <;> cases f <;> simp [DestroyDebugUtilsMessengerEXT]
  obtain ⟨c1, c2, c3, c4⟩ := slotReleases_counts N
  refine ⟨hc _ _, ?_, ?_, ?_, ?_, ?_⟩
  · intro i hi
    obtain ⟨d1, d2, d3⟩ := slotReleases_count_slot N i
    rw [if_pos hi] at d1 d2 d3
    rw [hc]
    simp only [List.count_append, d1, d2, d3]
    cases enableValidationLayers <;> cases procFound <;> simp [List.count_cons]
  · rw [hc]
    simp only [List.countP_append, c1]
    cases enableValidationLayers <;> cases procFound <;>
      simp [List.countP_cons, Op.isSemaphoreDestroy]
  · rw [hc]
    simp only [List.countP_append, c2]
    cases enableValidationLayers <;> cases procFound <;>
      simp [List.countP_cons, Op.isFenceDestroy]
  · rw [hc]
    simp only [List.count_append, c3]
    cases enableValidationLayers <;> cases procFound <;> simp [List.count_cons]
  · rw [hc]
    simp only [List.count_append, c4]
    simp [List.count_cons]

/-! ## C9: the rebuild after present -/

/-- C9: in every tick that reaches present (acquire returned success or
suboptimal, submit returned success), `framebufferResized` is false afterwards.
Unless the tick stays in the minimized wait for good, it calls `Recreate` once
and the resize callback once when present returned out-of-date or suboptimal or
the flag was set on entry, and calls neither otherwise.  The tick stays in the
wait exactly when that condition holds and every size of the window script has a
zero dimension. -/
theorem present_rebuild_iff (s : State) (env : FrameEnv)
    (hacq : env.acquire = VK_SUCCESS ∨ env.acquire = VK_SUBOPTIMAL_KHR)
    (hsub : env.submit = VK_SUCCESS) :
    (DrawFrame s env).state.framebufferResized = false ∧
    ((DrawFrame s env).outcome ≠ Outcome.blocked →
      (((DrawFrame s env).trace.countP Op.isRecreate = 1 ∧
          (DrawFrame s env).trace.countP Op.isResize = 1) ↔
        (env.present = VK_ERROR_OUT_OF_DATE_KHR ∨ env.present = VK_SUBOPTIMAL_KHR ∨
          s.framebufferResized = true)) ∧
      (¬ (env.present = VK_ERROR_OUT_OF_DATE_KHR ∨ env.present = VK_SUBOPTIMAL_KHR ∨
          s.framebufferResized = true) →
        (DrawFrame s env).trace.countP Op.isRecreate = 0 ∧
          (DrawFrame s env).trace.countP Op.isResize = 0)) ∧
    ((DrawFrame s env).outcome = Outcome.blocked ↔
      (env.present = VK_ERROR_OUT_OF_DATE_KHR ∨ env.present = VK_SUBOPTIMAL_KHR ∨
          s.framebufferResized = true) ∧
        ∀ x ∈ s.window.script, x.width = 0 ∨ x.height = 0) := by
  have hcond : presentStale s env = true ↔
      (env.present = VK_ERROR_OUT_OF_DATE_KHR ∨ env.present = VK_SUBOPTIMAL_KHR ∨
        s.framebufferResized = true) := by
    simp [presentStale, or_assoc]
  obtain ⟨d1, d2, -, -⟩ := presentedOps_counts s.currentFrame env.imageIndex
  cases hp : presentStale s env with
  | true =>
    have hc := hcond.1 hp
    rw [DrawFrame_present_stale s env hacq hsub hp]
    cases hr : rebuildSwapchain s.window with
    | none =>
      have hall := (rebuildSwapchain_none_iff _).1 hr
      refine ⟨rfl, fun h => absurd rfl h, ?_⟩
      simp only [true_iff]
      exact ⟨hc, fun x hx => (minimized_iff x).1 (hall x hx)⟩
    | some r =>
      obtain ⟨w, ops⟩ := r
      obtain ⟨c1, c2, -, -⟩ := rebuildSwapchain_counts _ _ _ hr
      refine ⟨rfl, fun _ => ⟨?_, fun hn => absurd hc hn⟩, ?_⟩
      · simp only [List.countP_append, d1, d2, c1, c2, hc]
        simp
      · simp only [false_iff, reduceCtorEq, not_and]
        intro _ hall
        have := (rebuildSwapchain_none_iff _).2 (fun x hx => (minimized_iff x).2 (hall x hx))
        rw [hr] at this
        cases this
  | false =>
    have hc : ¬ (env.present = VK_ERROR_OUT_OF_DATE_KHR ∨ env.present = VK_SUBOPTIMAL_KHR ∨
        s.framebufferResized = true) := by
      rw [← hcond, hp]; simp
    have hflag : s.framebufferResized = false := by
      simp [presentStale] at hp
      exact hp.2
    by_cases hpres : env.present = VK_SUCCESS
    · rw [DrawFrame_ok s env hacq hsub hp hpres]
      refine ⟨hflag, fun _ => ⟨?_, fun _ => ⟨d1, d2⟩⟩, ?_⟩
      · simp only [d1, hc]
        simp
      · simp only [reduceCtorEq, false_iff, not_and]
        intro h
        exact absurd h hc
    · rw [DrawFrame_present_fatal s env hacq hsub hp hpres]
      have e1 : (RUNTIME_ERROR Fatal.present s
          (presentedOps s.currentFrame env.imageIndex)).trace.countP Op.isRecreate = 0 := by
        simp [RUNTIME_ERROR, List.countP_append, d1, List.countP_cons, Op.isRecreate]
      have e2 : (RUNTIME_ERROR Fatal.present s
          (presentedOps s.currentFrame env.imageIndex)).trace.countP Op.isResize = 0 := by
        simp [RUNTIME_ERROR, List.countP_append, d2, List.countP_cons, Op.isResize]
      refine ⟨hflag, fun _ => ⟨?_, fun _ => ⟨e1, e2⟩⟩, ?_⟩
      · simp only [e1, hc]
        simp
      · simp only [RUNTIME_ERROR, reduceCtorEq, false_iff, not_and]
        intro h
        exact absurd h hc

/-- C9 with the resize flag set and a successful present: the flag is cleared,
`Recreate` and the resize callback are called once each. -/
theorem present_rebuild_iff_witness :
    (DrawFrame
      { currentFrame := 0, maxFramesInFlight := 2, framebufferResized := true,
        window := { size := ⟨640, 480⟩, pending := [] } }
      (FrameEnv.ok 0)).state.framebufferResized = false ∧
    (DrawFrame
      { currentFrame := 0, maxFramesInFlight := 2, framebufferResized := true,
        window := { size := ⟨640, 480⟩, pending := [] } }
      (FrameEnv.ok 0)).trace.countP Op.isRecreate = 1 ∧
    (DrawFrame
      { currentFrame := 0, maxFramesInFlight := 2, framebufferResized := true,
        window := { size := ⟨640, 480⟩, pending := [] } }
      (FrameEnv.ok 0)).trace.countP Op.isResize = 1 :=
  ⟨(present_rebuild_iff
      { currentFrame := 0, maxFramesInFlight := 2, framebufferResized := true,
        window := { size := ⟨640, 480⟩, pending := [] } }
      (FrameEnv.ok 0) (Or.inl rfl) rfl).1,
    ((present_rebuild_iff
      { currentFrame := 0, maxFramesInFlight := 2, framebufferResized := true,
        window := { size := ⟨640, 480⟩, pending := [] } }
      (FrameEnv.ok 0) (Or.inl rfl) rfl).2.1 (by decide)).1.2 (Or.inr (Or.inr rfl))⟩

/-! ## C10: the calls of a frame, in order -/

/-- No call of the rebuild block is one of the seven calls of a frame. -/
theorem rebuildSwapchain_no_frame_call (p w : Platform) (ops : List Op)
    (h : rebuildSwapchain p = some (w, ops)) : ∀ op ∈ ops, op.isFrameCall = false := by
  obtain ⟨p1, waited, hw, -, rfl⟩ := rebuildSwapchain_some _ _ _ h
  intro op hop
  simp only [List.mem_append, List.mem_cons, List.mem_singleton, List.not_mem_nil,
    or_false] at hop
  rcases hop with hop | rfl | rfl | rfl
  · have hwait := WaitWhileMinimized_isWaiting _ _ _ hw op hop
    cases op <;> simp_all [Op.isWaiting, Op.isFrameCall]
  · rfl
  · rfl
  · rfl

/-- C10 as stated fails: acquire returns success with image 3 on slot 0, then
`vkQueueSubmit` returns `VK_ERROR_DEVICE_LOST`.  The tick ends in
`RUNTIME_ERROR` right after the submit and presents nothing. -/
theorem frame_order_counterexample :
    (DrawFrame
      { currentFrame := 0, maxFramesInFlight := 2, framebufferResized := false,
        window := { size := ⟨640, 480⟩, pending := [] } }
      { acquire := VK_SUCCESS, imageIndex := 3, submit := VK_ERROR_DEVICE_LOST,
        present := VK_SUCCESS }).trace =
      [Op.waitForFences 0,
       Op.getNextImage (Sem.imageAvailable 0),
       Op.resetFences 0,
       Op.resetBuffer 3 0,
       Op.renderCallback 0 3 0,
       Op.queueSubmit Queue.graphics [Sem.imageAvailable 0] [Stage.colorAttachmentOutput]
         [0] [Sem.renderFinished 0] 0,
       Op.runtimeError Fatal.submit] ∧
    (DrawFrame
      { currentFrame := 0, maxFramesInFlight := 2, framebufferResized := false,
        window := { size := ⟨640, 480⟩, pending := [] } }
      { acquire := VK_SUCCESS, imageIndex := 3, submit := VK_ERROR_DEVICE_LOST,
        present := VK_SUCCESS }).trace.countP Op.isPresent = 0 := by
  decide

/-- C10 as amended: in every tick on slot s = `currentFrame` whose acquire
returns success or suboptimal with image index k, the calls begin with exactly
these six, in this order: wait on `inFlightFences[s]`; acquire signalling
`imageAvailableSemaphores[s]`; reset of `inFlightFences[s]`; reset of the command
buffer of slot s; render callback with (buffer of slot s, k, s); submit to the
graphics queue of that one buffer, waiting on `imageAvailableSemaphores[s]` at
the color-attachment-output stage, signalling `renderFinishedSemaphores[s]`,
with fence `inFlightFences[s]`.  When the submit returns success the seventh
call is the present of image k on the present queue waiting on
`renderFinishedSemaphores[s]`, and no call after it is of one of these seven
kinds.  When the submit returns anything but success, whatever the value, the
tick ends in `RUNTIME_ERROR` right after the submit, with the state untouched:
the six calls, the error, and no present. -/
theorem frame_order (s : State) (env : FrameEnv)
    (hacq : env.acquire = VK_SUCCESS ∨ env.acquire = VK_SUBOPTIMAL_KHR) :
    (env.submit = VK_SUCCESS →
      ∃ rest, (DrawFrame s env).trace =
        [Op.waitForFences s.currentFrame,
         Op.getNextImage (Sem.imageAvailable s.currentFrame),
         Op.resetFences s.currentFrame,
         Op.resetBuffer env.imageIndex s.currentFrame,
         Op.renderCallback s.currentFrame env.imageIndex s.currentFrame,
         Op.queueSubmit Queue.graphics [Sem.imageAvailable s.currentFrame]
           [Stage.colorAttachmentOutput] [s.currentFrame]
           [Sem.renderFinished s.currentFrame] s.currentFrame,
         Op.queuePresent Queue.present [Sem.renderFinished s.currentFrame] env.imageIndex]
          ++ rest ∧
        ∀ op ∈ rest, op.isFrameCall = false) ∧
    (env.submit ≠ VK_SUCCESS →
      DrawFrame s env =
        { outcome := Outcome.fatal Fatal.submit,
          state := s,
          trace :=
            [Op.waitForFences s.currentFrame,
             Op.getNextImage (Sem.imageAvailable s.currentFrame),
             Op.resetFences s.currentFrame,
             Op.resetBuffer env.imageIndex s.currentFrame,
             Op.renderCallback s.currentFrame env.imageIndex s.currentFrame,
             Op.queueSubmit Queue.graphics [Sem.imageAvailable s.currentFrame]
               [Stage.colorAttachmentOutput] [s.currentFrame]
               [Sem.renderFinished s.currentFrame] s.currentFrame,
             Op.runtimeError Fatal.submit] } ∧
      (DrawFrame s env).trace.countP Op.isPresent = 0) := by
  refine ⟨?_, ?_⟩
  · intro hsub
    cases hp : presentStale s env with
    | true =>
      rw [DrawFrame_present_stale s env hacq hsub hp]
      cases hr : rebuildSwapchain s.window with
      | none => exact ⟨[], by simp [presentedOps, submittedOps], by simp⟩
      | some r =>
        exact ⟨r.2, by simp [presentedOps, submittedOps],
          rebuildSwapchain_no_frame_call _ r.1 r.2 hr⟩
    | false =>
      by_cases hpres : env.present = VK_SUCCESS
      · rw [DrawFrame_ok s env hacq hsub hp hpres]
        exact ⟨[], by simp [presentedOps, submittedOps], by simp⟩
      · rw [DrawFrame_present_fatal s env hacq hsub hp hpres]
        exact ⟨[Op.runtimeError Fatal.present],
          by simp [RUNTIME_ERROR, presentedOps, submittedOps], by simp [Op.isFrameCall]⟩
  · intro hsub
    rw [DrawFrame_submit_fatal s env hacq hsub]
    exact ⟨by simp [RUNTIME_ERROR, submittedOps],
      by simp [RUNTIME_ERROR, submittedOps, List.countP_cons, Op.isPresent]⟩

/-- C10 (amended) on slot 1 with a suboptimal acquire of image 2: once with a
successful submit, once with a submit that returns out-of-date. -/
theorem frame_order_witness :
    (∃ rest, (DrawFrame
      { currentFrame := 1, maxFramesInFlight := 2, framebufferResized := false,
        window := { size := ⟨640, 480⟩, pending := [] } }
      { acquire := VK_SUBOPTIMAL_KHR, imageIndex := 2, submit := VK_SUCCESS,
        present := VK_SUCCESS }).trace =
      [Op.waitForFences 1,
       Op.getNextImage (Sem.imageAvailable 1),
       Op.resetFences 1,
       Op.resetBuffer 2 1,
       Op.renderCallback 1 2 1,
       Op.queueSubmit Queue.graphics [Sem.imageAvailable 1] [Stage.colorAttachmentOutput]
         [1] [Sem.renderFinished 1] 1,
       Op.queuePresent Queue.present [Sem.renderFinished 1] 2]
        ++ rest ∧
      ∀ op ∈ rest, op.isFrameCall = false) ∧
    (DrawFrame
      { currentFrame := 1, maxFramesInFlight := 2, framebufferResized := false,
        window := { size := ⟨640, 480⟩, pending := [] } }
      { acquire := VK_SUBOPTIMAL_KHR, imageIndex := 2, submit := VK_ERROR_OUT_OF_DATE_KHR,
        present := VK_SUCCESS }).trace.countP Op.isPresent = 0 :=
  ⟨(frame_order
      { currentFrame := 1, maxFramesInFlight := 2, framebufferResized := false,
        window := { size := ⟨640, 480⟩, pending := [] } }
      { acquire := VK_SUBOPTIMAL_KHR, imageIndex := 2, submit := VK_SUCCESS,
        present := VK_SUCCESS } (Or.inr rfl)).1 rfl,
   ((frame_order
      { currentFrame := 1, maxFramesInFlight := 2, framebufferResized := false,
        window := { size := ⟨640, 480⟩, pending := [] } }
      { acquire := VK_SUBOPTIMAL_KHR, imageIndex := 2, submit := VK_ERROR_OUT_OF_DATE_KHR,
        present := VK_SUCCESS } (Or.inr rfl)).2 (by decide)).2⟩

/-! ## The fences along a run -/

theorem applyOps_append (fences : List Fence) (a b : List Op) :
    applyOps fences (a ++ b) =
      match applyOps fences a with
      | none => none
      | some fences1 => applyOps fences1 b := by
  induction a generalizing fences with
  | nil => rfl
  | cons op rest ih =>
    simp only [List.cons_append, applyOps]
    cases applyOp fences op with
    | none => rfl
    | some fences1 => exact ih fences1

theorem applyOp_inert (fences : List Fence) (op : Op) (h : op.isFrameCall = false) :
    applyOp fences op = some fences := by
  cases op <;> first | rfl | (simp [Op.isFrameCall] at h)

/-- Calls that are none of the seven calls of a frame leave the fences alone. -/
theorem applyOps_inert (fences : List Fence) (ops : List Op)
    (h : ∀ op ∈ ops, op.isFrameCall = false) : applyOps fences ops = some fences := by
  induction ops with
  | nil => rfl
  | cons op rest ih =>
    simp only [applyOps, applyOp_inert fences op (h op (by simp))]
    exact ih (fun o ho => h o (List.mem_cons_of_mem _ ho))

/-- The wait and the acquire get past a signalled fence and change nothing. -/
theorem applyOps_acquiredOps (fences : List Fence) (slot : Nat) :
    applyOps fences (acquiredOps slot) =
      match fences[slot]? with
      | some f => if f.signalled then some fences else none
      | none => none := by
  simp only [acquiredOps, applyOps, applyOp]
  cases hf : fences[slot]? with
  | none => rfl
  | some f => cases hs : f.signalled <;> simp [hs]

/-- The calls of a frame up to the present get past a signalled fence and leave
it unsignalled with one more unretired submission. -/
theorem applyOps_presentedOps (fences : List Fence) (slot k : Nat) :
    applyOps fences (presentedOps slot k) =
      match fences[slot]? with
      | some f =>
        if f.signalled then
          some (fences.set slot { signalled := false, unretired := f.unretired + 1 })
        else none
      | none => none := by
  simp only [presentedOps, submittedOps, List.cons_append, List.nil_append, applyOps, applyOp]
  cases hf : fences[slot]? with
  | none => rfl
  | some f =>
    have hlt : slot < fences.length := by
      obtain ⟨h, -⟩ := List.getElem?_eq_some.1 hf
      exact h
    cases hs : f.signalled with
    | false => simp [hs]
    | true => simp [hs, hf, List.getElem?_set, hlt]

/-- The calls of a tick that returns: after a stale acquire the wait and the
acquire, otherwise the seven calls of a frame; then calls that are none of
these. -/
theorem DrawFrame_returned_trace (s : State) (env : FrameEnv)
    (hret : (DrawFrame s env).outcome = Outcome.returned) :
    (env.acquire = VK_ERROR_OUT_OF_DATE_KHR ∧
      (DrawFrame s env).state.currentFrame = s.currentFrame ∧
      ∃ ops, (DrawFrame s env).trace = acquiredOps s.currentFrame ++ ops ∧
        ∀ op ∈ ops, op.isFrameCall = false) ∨
    (env.acquire ≠ VK_ERROR_OUT_OF_DATE_KHR ∧
      ∃ ops, (DrawFrame s env).trace = presentedOps s.currentFrame env.imageIndex ++ ops ∧
        ∀ op ∈ ops, op.isFrameCall = false) := by
  rcases DrawFrame_cases s env with h | ⟨h1, h2, h3⟩ | ⟨h1, h2⟩ | ⟨h1, h2, h3⟩ |
    ⟨h1, h2, h3, h4⟩ | ⟨h1, h2, h3, h4⟩
  · left
    rw [DrawFrame_stale s env h] at hret ⊢
    cases hr : rebuildSwapchain s.window with
    | none => rw [hr] at hret; cases hret
    | some r =>
      exact ⟨h, rfl, r.2, rfl, rebuildSwapchain_no_frame_call _ r.1 r.2 hr⟩
  · rw [DrawFrame_acquire_fatal s env h1 h2 h3] at hret; cases hret
  · rw [DrawFrame_submit_fatal s env h1 h2] at hret; cases hret
  · right
    have hne : env.acquire ≠ VK_ERROR_OUT_OF_DATE_KHR := by
      rcases h1 with h | h <;> rw [h] <;> simp
    rw [DrawFrame_present_stale s env h1 h2 h3] at hret ⊢
    cases hr : rebuildSwapchain s.window with
    | none => rw [hr] at hret; cases hret
    | some r =>
      exact ⟨hne, r.2, rfl, rebuildSwapchain_no_frame_call _ r.1 r.2 hr⟩
  · rw [DrawFrame_present_fatal s env h1 h2 h3 h4] at hret; cases hret
  · right
    have hne : env.acquire ≠ VK_ERROR_OUT_OF_DATE_KHR := by
      rcases h1 with h | h <;> rw [h] <;> simp
    rw [DrawFrame_ok s env h1 h2 h3 h4]
    exact ⟨hne, [], by simp, by simp⟩

/-- What a tick of the machine is: the fence of the current slot was signalled;
after a stale acquire slot and fences are as before, otherwise that fence is
unsignalled and has one more unretired submission. -/
theorem step_tick (m m1 : Machine) (env : FrameEnv)
    (h : m.step (Event.tick env) = some m1) :
    (DrawFrame m.renderer env).outcome = Outcome.returned ∧
    m1.renderer = (DrawFrame m.renderer env).state ∧
    ∃ f, m.fences[m.renderer.currentFrame]? = some f ∧ f.signalled = true ∧
      ((env.acquire = VK_ERROR_OUT_OF_DATE_KHR ∧ m1.fences = m.fences ∧
          m1.renderer.currentFrame = m.renderer.currentFrame) ∨
        (env.acquire ≠ VK_ERROR_OUT_OF_DATE_KHR ∧
          m1.fences = m.fences.set m.renderer.currentFrame
            { signalled := false, unretired := f.unretired + 1 })) := by
  simp only [Machine.step] at h
  cases hout : (DrawFrame m.renderer env).outcome with
  | fatal site => rw [hout] at h; cases h
  | blocked => rw [hout] at h; cases h
  | returned =>
    rw [hout] at h
    simp only at h
    cases hap : applyOps m.fences (DrawFrame m.renderer env).trace with
    | none => rw [hap] at h; cases h
    | some fences1 =>
      rw [hap] at h
      simp only [Option.some.injEq] at h
      subst h
      refine ⟨rfl, rfl, ?_⟩
      rcases DrawFrame_returned_trace m.renderer env hout with
        ⟨hacq, hcf, ops, htr, hops⟩ | ⟨hacq, ops, htr, hops⟩
      · rw [htr, applyOps_append, applyOps_acquiredOps] at hap
        cases hf : m.fences[m.renderer.currentFrame]? with
        | none => rw [hf] at hap; cases hap
        | some f =>
          rw [hf] at hap
          cases hs : f.signalled with
          | false => simp [hs] at hap
          | true =>
            simp [hs, applyOps_inert _ ops hops] at hap
            exact ⟨f, rfl, hs, Or.inl ⟨hacq, hap.symm, hcf⟩⟩
      · rw [htr, applyOps_append, applyOps_presentedOps] at hap
        cases hf : m.fences[m.renderer.currentFrame]? with
        | none => rw [hf] at hap; cases hap
        | some f =>
          rw [hf] at hap
          cases hs : f.signalled with
          | false => simp [hs] at hap
          | true =>
            simp [hs, applyOps_inert _ ops hops] at hap
            exact ⟨f, rfl, hs, Or.inr ⟨hacq, hap.symm⟩⟩

/-- One event keeps the number of fences, the consistency of every fence and
the number of slots. -/
theorem step_preserves (m m1 : Machine) (ev : Event)
    (hinv : ∀ (i : Nat) (f : Fence), m.fences[i]? = some f → f.Consistent)
    (h : m.step ev = some m1) :
    m1.fences.length = m.fences.length ∧
    (∀ (i : Nat) (f : Fence), m1.fences[i]? = some f → f.Consistent) ∧
    m1.renderer.maxFramesInFlight = m.renderer.maxFramesInFlight := by
  cases ev with
  | tick env =>
    obtain ⟨-, hren, f, hf, hs, hcase⟩ := step_tick m m1 env h
    have hn : m1.renderer.maxFramesInFlight = m.renderer.maxFramesInFlight := by
      rw [hren]; exact DrawFrame_maxFramesInFlight _ _
    rcases hcase with ⟨-, hfe, -⟩ | ⟨-, hfe⟩
    · rw [hfe]; exact ⟨rfl, hinv, hn⟩
    · rw [hfe]
      refine ⟨List.length_set _ _ _, ?_, hn⟩
      intro i g hg
      rw [List.getElem?_set] at hg
      by_cases hi : m.renderer.currentFrame = i
      · rw [if_pos hi] at hg
        split at hg
        · cases hg
          rcases hinv _ f hf with ⟨-, h0⟩ | ⟨h1, -⟩
          · right; exact ⟨rfl, by simp [h0]⟩
          · rw [hs] at h1; cases h1
        · cases hg
      · rw [if_neg hi] at hg
        exact hinv i g hg
  | retire slot =>
    simp only [Machine.step] at h
    cases hf : m.fences[slot]? with
    | none => rw [hf] at h; cases h
    | some f =>
      rw [hf] at h
      by_cases hpos : 0 < f.unretired
      · simp only [hpos, if_true, Option.some.injEq] at h
        subst h
        refine ⟨List.length_set _ _ _, ?_, rfl⟩
        intro i g hg
        simp only [List.getElem?_set] at hg
        by_cases hi : slot = i
        · rw [if_pos hi] at hg
          split at hg
          · cases hg
            rcases hinv _ f hf with ⟨-, h0⟩ | ⟨-, h1⟩
            · omega
            · left; exact ⟨rfl, by simp [h1]⟩
          · cases hg
        · rw [if_neg hi] at hg
          exact hinv i g hg
      · simp [hpos] at h
  | windowResized =>
    simp only [Machine.step, Option.some.injEq] at h
    subst h
    exact ⟨rfl, hinv, rfl⟩

/-- A run keeps the number of fences, the consistency of every fence and the
number of slots. -/
theorem run_preserves (evs : List Event) (m m1 : Machine)
    (hinv : ∀ (i : Nat) (f : Fence), m.fences[i]? = some f → f.Consistent)
    (h : m.run evs = some m1) :
    m1.fences.length = m.fences.length ∧
    (∀ (i : Nat) (f : Fence), m1.fences[i]? = some f → f.Consistent) ∧
    m1.renderer.maxFramesInFlight = m.renderer.maxFramesInFlight := by
  induction evs generalizing m with
  | nil =>
    simp only [Machine.run, Option.some.injEq] at h
    subst h
    exact ⟨rfl, hinv, rfl⟩
  | cons ev rest ih =>
    simp only [Machine.run] at h
    cases hst : m.step ev with
    | none => rw [hst] at h; cases h
    | some m2 =>
      rw [hst] at h
      obtain ⟨a1, a2, a3⟩ := step_preserves m m2 ev hinv hst
      obtain ⟨b1, b2, b3⟩ := ih m2 a2 h
      exact ⟨b1.trans a1, b2, b3.trans a3⟩

theorem start_consistent (s : State) :
    ∀ (i : Nat) (f : Fence), (Machine.start s).fences[i]? = some f → f.Consistent := by
  intro i f hf
  simp only [Machine.start, CreateSyncObjects, List.getElem?_replicate] at hf
  split at hf
  · cases hf
    left; exact ⟨rfl, rfl⟩
  · cases hf

/-! ## C11: the fence invariant -/

/-- C11: start from any renderer state with the fences as `CreateSyncObjects`
made them, and let ticks that return, retirements of submissions and resize
events follow in any order.  In every state reached there is one fence per
slot; every fence has at most one unretired submission; an unsignalled fence
has exactly one and a signalled fence none.  A tick that resets the command
buffer of a slot starts, and its fence wait returns, in a state where that
slot's fence is signalled with nothing unretired on it.  The fence the first
tick waits for is signalled as created, and after a tick that a stale acquire
aborted the slot and the fences are unchanged, so the fence the next tick waits
for is signalled.  When the fence of the current slot is unsignalled, the
retirement of its one submission signals it. -/
theorem fence_invariant (s : State) (evs : List Event) (m : Machine)
    (hrun : (Machine.start s).run evs = some m) :
    m.fences.length = s.maxFramesInFlight ∧
    (∀ (i : Nat) (f : Fence), m.fences[i]? = some f → f.unretired ≤ 1) ∧
    (∀ (i : Nat) (f : Fence), m.fences[i]? = some f → f.signalled = false →
      f.unretired = 1) ∧
    (∀ (i : Nat) (f : Fence), m.fences[i]? = some f → f.signalled = true →
      f.unretired = 0) ∧
    (∀ (env : FrameEnv) (m1 : Machine), m.step (Event.tick env) = some m1 →
      ∀ k i, Op.resetBuffer k i ∈ (DrawFrame m.renderer env).trace →
        m.fences[i]? = some { signalled := true, unretired := 0 }) ∧
    (s.currentFrame < s.maxFramesInFlight →
      (Machine.start s).fences[s.currentFrame]? = some { signalled := true, unretired := 0 }) ∧
    (∀ (env : FrameEnv) (m1 : Machine), env.acquire = VK_ERROR_OUT_OF_DATE_KHR →
      m.step (Event.tick env) = some m1 →
      m1.renderer.currentFrame = m.renderer.currentFrame ∧ m1.fences = m.fences ∧
        m1.fences[m1.renderer.currentFrame]? = some { signalled := true, unretired := 0 }) ∧
    (∀ f : Fence, m.fences[m.renderer.currentFrame]? = some f → f.signalled = false →
      ∃ m1, m.step (Event.retire m.renderer.currentFrame) = some m1 ∧
        m1.renderer = m.renderer ∧
        m1.fences[m1.renderer.currentFrame]? = some { signalled := true, unretired := 0 }) := by
  obtain ⟨hlen, hinv, -⟩ := run_preserves evs _ m (start_consistent s) hrun
  have hsig : ∀ (i : Nat) (f : Fence), m.fences[i]? = some f → f.signalled = true →
      f = { signalled := true, unretired := 0 } := by
    intro i f hf hs
    rcases hinv i f hf with ⟨-, h0⟩ | ⟨h1, -⟩
    · cases f; simp_all
    · rw [hs] at h1; cases h1
  refine ⟨?_, ?_, ?_, ?_, ?_, ?_, ?_, ?_⟩
  · rw [hlen]; simp [Machine.start, CreateSyncObjects]
  · intro i f hf
    rcases hinv i f hf with ⟨-, h0⟩ | ⟨-, h1⟩ <;> omega
  · intro i f hf hs
    rcases hinv i f hf with ⟨h1, -⟩ | ⟨-, h1⟩
    · rw [hs] at h1; cases h1
    · exact h1
  · intro i f hf hs
    rcases hinv i f hf with ⟨-, h0⟩ | ⟨h1, -⟩
    · exact h0
    · rw [hs] at h1; cases h1
  · intro env m1 hstep k i hmem
    obtain ⟨hret, -, f, hf, hs, -⟩ := step_tick m m1 env hstep
    have hi : i = m.renderer.currentFrame := by
      rcases DrawFrame_returned_trace m.renderer env hret with
        ⟨-, -, ops, htr, hops⟩ | ⟨-, ops, htr, hops⟩
      · rw [htr] at hmem
        rcases List.mem_append.1 hmem with h1 | h1
        · simp [acquiredOps] at h1
        · have := hops _ h1
          simp [Op.isFrameCall] at this
      · rw [htr] at hmem
        rcases List.mem_append.1 hmem with h1 | h1
        · simp [presentedOps, submittedOps] at h1
          exact h1.2
        · have := hops _ h1
          simp [Op.isFrameCall] at this
    rw [hi, hf, hsig _ f hf hs]
  · intro hcf
    simp [Machine.start, CreateSyncObjects, List.getElem?_replicate, hcf]
  · intro env m1 hacq hstep
    obtain ⟨-, -, f, hf, hs, hcase⟩ := step_tick m m1 env hstep
    rcases hcase with ⟨-, hfe, hcf⟩ | ⟨hne, -⟩
    · refine ⟨hcf, hfe, ?_⟩
      rw [hfe, hcf, hf, hsig _ f hf hs]
    · exact absurd hacq hne
  · intro f hf hs
    have h1 : f.unretired = 1 := by
      rcases hinv _ f hf with ⟨h1, -⟩ | ⟨-, h1⟩
      · rw [hs] at h1; cases h1
      · exact h1
    have hlt : m.renderer.currentFrame < m.fences.length := by
      obtain ⟨h, -⟩ := List.getElem?_eq_some.1 hf
      exact h
    refine ⟨{ renderer := m.renderer,
               fences := m.fences.set m.renderer.currentFrame (Fence.mk true 0) },
      ?_, rfl, ?_⟩
    · simp [Machine.step, hf, h1]
    · simp [List.getElem?_set, hlt]

/-- C11 on two slots: two frames, the first retires, a stale acquire, a resize
event and a third frame; both fences are then unsignalled with one unretired
submission each. -/
theorem fence_invariant_witness :
    ({ renderer := { currentFrame := 1, maxFramesInFlight := 2, framebufferResized := false,
                     window := { size := ⟨640, 480⟩, pending := [] } },
       fences := [{ signalled := false, unretired := 1 },
                  { signalled := false, unretired := 1 }] } : Machine).fences.length = 2 ∧
    (Machine.start { currentFrame := 0, maxFramesInFlight := 2, framebufferResized := false,
                     window := { size := ⟨640, 480⟩, pending := [] } }).fences[0]? =
      some { signalled := true, unretired := 0 } :=
  ⟨(fence_invariant
      { currentFrame := 0, maxFramesInFlight := 2, framebufferResized := false,
        window := { size := ⟨640, 480⟩, pending := [] } }
      [Event.tick (FrameEnv.ok 0), Event.tick (FrameEnv.ok 1), Event.retire 0,
       Event.tick FrameEnv.stale, Event.windowResized, Event.tick (FrameEnv.ok 0)]
      { renderer := { currentFrame := 1, maxFramesInFlight := 2, framebufferResized := false,
                      window := { size := ⟨640, 480⟩, pending := [] } },
        fences := [{ signalled := false, unretired := 1 },
                   { signalled := false, unretired := 1 }] }
      (by decide)).1,
   (fence_invariant
      { currentFrame := 0, maxFramesInFlight := 2, framebufferResized := false,
        window := { size := ⟨640, 480⟩, pending := [] } }
      [Event.tick (FrameEnv.ok 0), Event.tick (FrameEnv.ok 1), Event.retire 0,
       Event.tick FrameEnv.stale, Event.windowResized, Event.tick (FrameEnv.ok 0)]
      { renderer := { currentFrame := 1, maxFramesInFlight := 2, framebufferResized := false,
                      window := { size := ⟨640, 480⟩, pending := [] } },
        fences := [{ signalled := false, unretired := 1 },
                   { signalled := false, unretired := 1 }] }
      (by decide)).2.2.2.2.2.1 (by decide)⟩

/-- A tick whose `vkQueueSubmit` fails is no step of the machine: it ends in
`RUNTIME_ERROR`, which ends the process.  The calls it made before the submit
leave the fence of its slot reset, with no submission to signal it. -/
theorem failed_submit_fence (s : State) (env : FrameEnv) (fences : List Fence)
    (hacq : env.acquire = VK_SUCCESS ∨ env.acquire = VK_SUBOPTIMAL_KHR)
    (hsub : env.submit ≠ VK_SUCCESS)
    (hf : fences[s.currentFrame]? = some { signalled := true, unretired := 0 }) :
    (DrawFrame s env).outcome = Outcome.fatal Fatal.submit ∧
    (DrawFrame s env).trace =
      submittedOps s.currentFrame env.imageIndex ++ [Op.runtimeError Fatal.submit] ∧
    applyOps fences (submittedOps s.currentFrame env.imageIndex).dropLast =
      some (fences.set s.currentFrame { signalled := false, unretired := 0 }) := by
  rw [DrawFrame_submit_fatal s env hacq hsub]
  refine ⟨rfl, rfl, ?_⟩
  simp [submittedOps, applyOps, applyOp, hf]

/-! ## C12: the slot index stays in range -/

/-- Every call of a tick is one of the seven calls of a frame on the current
slot, or none of the seven kinds. -/
theorem DrawFrame_trace_ops (s : State) (env : FrameEnv) :
    ∀ op ∈ (DrawFrame s env).trace,
      op ∈ presentedOps s.currentFrame env.imageIndex ∨ op.isFrameCall = false := by
  have hacq : ∀ op ∈ acquiredOps s.currentFrame,
      op ∈ presentedOps s.currentFrame env.imageIndex := by
    intro op hop
    simp only [acquiredOps, List.mem_cons, List.mem_singleton, List.not_mem_nil,
      or_false] at hop
    rcases hop with rfl | rfl <;> simp [presentedOps, submittedOps]
  have hsub : ∀ op ∈ submittedOps s.currentFrame env.imageIndex,
      op ∈ presentedOps s.currentFrame env.imageIndex := by
    intro op hop
    exact List.mem_append_left _ hop
  intro op hop
  rcases DrawFrame_cases s env with h | ⟨h1, h2, h3⟩ | ⟨h1, h2⟩ | ⟨h1, h2, h3⟩ |
    ⟨h1, h2, h3, h4⟩ | ⟨h1, h2, h3, h4⟩
  · rw [DrawFrame_stale s env h] at hop
    cases hr : rebuildSwapchain s.window with
    | none =>
      rw [hr] at hop
      exact Or.inl (hacq op hop)
    | some r =>
      rw [hr] at hop
      rcases List.mem_append.1 hop with h1 | h1
      · exact Or.inl (hacq op h1)
      · exact Or.inr (rebuildSwapchain_no_frame_call _ r.1 r.2 hr op h1)
  · rw [DrawFrame_acquire_fatal s env h1 h2 h3] at hop
    rcases List.mem_append.1 hop with h1 | h1
    · exact Or.inl (hacq op h1)
    · simp only [List.mem_singleton] at h1
      subst h1
      exact Or.inr rfl
  · rw [DrawFrame_submit_fatal s env h1 h2] at hop
    rcases List.mem_append.1 hop with h1 | h1
    · exact Or.inl (hsub op h1)
    · simp only [List.mem_singleton] at h1
      subst h1
      exact Or.inr rfl
  · rw [DrawFrame_present_stale s env h1 h2 h3] at hop
    cases hr : rebuildSwapchain s.window with
    | none =>
      rw [hr] at hop
      exact Or.inl hop
    | some r =>
      rw [hr] at hop
      rcases List.mem_append.1 hop with h1 | h1
      · exact Or.inl h1
      · exact Or.inr (rebuildSwapchain_no_frame_call _ r.1 r.2 hr op h1)
  · rw [DrawFrame_present_fatal s env h1 h2 h3 h4] at hop
    rcases List.mem_append.1 hop with h1 | h1
    · exact Or.inl h1
    · simp only [List.mem_singleton] at h1
      subst h1
      exact Or.inr rfl
  · rw [DrawFrame_ok s env h1 h2 h3 h4] at hop
    exact Or.inl hop

/-- A call that is none of the seven calls of a frame reads no per-slot vector. -/
theorem lookups_of_not_frame_call (op : Op) (h : op.isFrameCall = false) : op.lookups = [] := by
  cases op <;> first | rfl | (simp [Op.isFrameCall] at h)

/-- Every per-slot read of a tick is at index `currentFrame`. -/
theorem DrawFrame_lookups (s : State) (env : FrameEnv) :
    ∀ op ∈ (DrawFrame s env).trace, ∀ l ∈ op.lookups, l.2 = s.currentFrame := by
  intro op hop l hl
  rcases DrawFrame_trace_ops s env op hop with h | h
  · simp only [presentedOps, submittedOps, List.cons_append, List.nil_append, List.mem_cons,
      List.mem_singleton, List.not_mem_nil, or_false] at h
    rcases h with rfl | rfl | rfl | rfl | rfl | rfl | rfl <;>
      simp [Op.lookups, Sem.lookup] at hl <;> (try rcases hl with rfl | rfl | rfl) <;> rfl
  · rw [lookups_of_not_frame_call op h] at hl
    cases hl

/-- A tick leaves `currentFrame` below the number of slots, however it ends. -/
theorem DrawFrame_currentFrame_lt (s : State) (env : FrameEnv)
    (h : s.currentFrame < s.maxFramesInFlight) :
    (DrawFrame s env).state.currentFrame < s.maxFramesInFlight := by
  have hadv : ∀ s1 : State, s1.maxFramesInFlight = s.maxFramesInFlight →
      (advance s1).currentFrame < s.maxFramesInFlight := by
    intro s1 h1
    simp only [advance, h1]
    exact Nat.mod_lt _ (by omega)
  rcases DrawFrame_cases s env with h0 | ⟨h1, h2, h3⟩ | ⟨h1, h2⟩ | ⟨h1, h2, h3⟩ |
    ⟨h1, h2, h3, h4⟩ | ⟨h1, h2, h3, h4⟩
  · rw [DrawFrame_stale s env h0]; split <;> exact h
  · rw [DrawFrame_acquire_fatal s env h1 h2 h3]; exact h
  · rw [DrawFrame_submit_fatal s env h1 h2]; exact h
  · rw [DrawFrame_present_stale s env h1 h2 h3]
    split
    · exact h
    · exact hadv _ rfl
  · rw [DrawFrame_present_fatal s env h1 h2 h3 h4]; exact h
  · rw [DrawFrame_ok s env h1 h2 h3 h4]; exact hadv s rfl

/-- Along a run of ticks, every tick leaves `currentFrame` below the number of
slots and the number of slots unchanged, and reads the per-slot vectors below
that number only. -/
theorem DrawFrames_in_bounds (envs : List FrameEnv) (s : State)
    (h : s.currentFrame < s.maxFramesInFlight) :
    (stateAfter s (DrawFrames s envs)).currentFrame < s.maxFramesInFlight ∧
    (stateAfter s (DrawFrames s envs)).maxFramesInFlight = s.maxFramesInFlight ∧
    ∀ t ∈ DrawFrames s envs,
      t.state.currentFrame < s.maxFramesInFlight ∧
      t.state.maxFramesInFlight = s.maxFramesInFlight ∧
      ∀ op ∈ t.trace, ∀ l ∈ op.lookups, l.2 < s.maxFramesInFlight := by
  induction envs generalizing s with
  | nil => simp [DrawFrames, stateAfter, h]
  | cons e rest ih =>
    have hcf := DrawFrame_currentFrame_lt s e h
    have hn := DrawFrame_maxFramesInFlight s e
    have hlk : ∀ op ∈ (DrawFrame s e).trace, ∀ l ∈ op.lookups, l.2 < s.maxFramesInFlight := by
      intro op hop l hl
      rw [DrawFrame_lookups s e op hop l hl]
      exact h
    cases hout : (DrawFrame s e).outcome with
    | returned =>
      have hstep : DrawFrames s (e :: rest) =
          DrawFrame s e :: DrawFrames (DrawFrame s e).state rest := by
        simp [DrawFrames, hout]
      obtain ⟨i1, i2, i3⟩ := ih (DrawFrame s e).state (by rw [hn]; exact hcf)
      rw [hn] at i1 i2
      rw [hstep]
      refine ⟨i1, i2, ?_⟩
      intro t ht
      rcases List.mem_cons.1 ht with rfl | ht
      · exact ⟨hcf, hn, hlk⟩
      · have := i3 t ht
        rw [hn] at this
        exact this
    | fatal site =>
      have hstep : DrawFrames s (e :: rest) = [DrawFrame s e] := by
        simp [DrawFrames, hout]
      rw [hstep]
      refine ⟨hcf, hn, ?_⟩
      intro t ht
      simp only [List.mem_singleton] at ht
      subst ht
      exact ⟨hcf, hn, hlk⟩
    | blocked =>
      have hstep : DrawFrames s (e :: rest) = [DrawFrame s e] := by
        simp [DrawFrames, hout]
      rw [hstep]
      refine ⟨hcf, hn, ?_⟩
      intro t ht
      simp only [List.mem_singleton] at ht
      subst ht
      exact ⟨hcf, hn, hlk⟩

/-- C12: for every N >= 1 and every start with `currentFrame` in [0, N), after
any finite sequence of ticks (successful, aborted by a stale acquire, rebuilt
after present, and a last one that ends otherwise) `currentFrame` is still in
[0, N) and N is unchanged.  In every tick of the sequence, every read of
`inFlightFences`, `imageAvailableSemaphores` and `renderFinishedSemaphores`,
each of length N as `CreateSyncObjects` sized it, is at an index below that
length, and the modulus of the advance, N, is not zero. -/
theorem slot_in_bounds (s : State) (envs : List FrameEnv)
    (h : s.currentFrame < s.maxFramesInFlight) :
    (stateAfter s (DrawFrames s envs)).currentFrame <
      (stateAfter s (DrawFrames s envs)).maxFramesInFlight ∧
    (∀ v : PerSlot, (CreateSyncObjects s.maxFramesInFlight).size v = s.maxFramesInFlight) ∧
    (∀ t ∈ DrawFrames s envs,
      t.state.currentFrame < t.state.maxFramesInFlight ∧
      t.state.maxFramesInFlight = s.maxFramesInFlight ∧
      t.state.maxFramesInFlight ≠ 0 ∧
      ∀ op ∈ t.trace, ∀ l ∈ op.lookups,
        l.2 < (CreateSyncObjects s.maxFramesInFlight).size l.1) ∧
    s.maxFramesInFlight ≠ 0 := by
  obtain ⟨h1, h2, h3⟩ := DrawFrames_in_bounds envs s h
  have hsize : ∀ v : PerSlot,
      (CreateSyncObjects s.maxFramesInFlight).size v = s.maxFramesInFlight := by
    intro v
    cases v <;> simp [CreateSyncObjects, SyncObjects.size]
  refine ⟨by rw [h2]; exact h1, hsize, ?_, by omega⟩
  intro t ht
  obtain ⟨a1, a2, a3⟩ := h3 t ht
  refine ⟨by rw [a2]; exact a1, a2, by rw [a2]; omega, ?_⟩
  intro op hop l hl
  rw [hsize]
  exact a3 op hop l hl

/-- C12 on three slots from slot 2: a frame, a stale acquire, a frame rebuilt
after present and a frame; `currentFrame` ends in range. -/
theorem slot_in_bounds_witness :
    (stateAfter
      { currentFrame := 2, maxFramesInFlight := 3, framebufferResized := false,
        window := { size := ⟨640, 480⟩, pending := [] } }
      (DrawFrames
        { currentFrame := 2, maxFramesInFlight := 3, framebufferResized := false,
          window := { size := ⟨640, 480⟩, pending := [] } }
        [FrameEnv.ok 0, FrameEnv.stale,
         { acquire := VK_SUCCESS, imageIndex := 1, submit := VK_SUCCESS,
           present := VK_SUBOPTIMAL_KHR },
         FrameEnv.ok 2])).currentFrame <
    (stateAfter
      { currentFrame := 2, maxFramesInFlight := 3, framebufferResized := false,
        window := { size := ⟨640, 480⟩, pending := [] } }
      (DrawFrames
        { currentFrame := 2, maxFramesInFlight := 3, framebufferResized := false,
          window := { size := ⟨640, 480⟩, pending := [] } }
        [FrameEnv.ok 0, FrameEnv.stale,
         { acquire := VK_SUCCESS, imageIndex := 1, submit := VK_SUCCESS,
           present := VK_SUBOPTIMAL_KHR },
         FrameEnv.ok 2])).maxFramesInFlight :=
  (slot_in_bounds
    { currentFrame := 2, maxFramesInFlight := 3, framebufferResized := false,
      window := { size := ⟨640, 480⟩, pending := [] } }
    [FrameEnv.ok 0, FrameEnv.stale,
     { acquire := VK_SUCCESS, imageIndex := 1, submit := VK_SUCCESS,
       present := VK_SUBOPTIMAL_KHR },
     FrameEnv.ok 2]
    (by decide)).1

end PxlRnd
